import Mathlib

set_option maxRecDepth 8000

/-!
Shallow embedding of the CHIP-8 emulator engine (`src/emulator.rs` of the
Vinermy/chip8 repository) and proofs about it.

Machine integers are modelled as `Nat` with explicit reduction `% 256`
(u8) and `% 65536` (u16) exactly where the Rust release-mode semantics
wraps.  Rust `Vec` indexing is modelled with `List.get?` / a guarded
`List.set`; an out-of-bounds access - which aborts the Rust process -
is modelled by the `crash` outcome.  The random byte drawn by opcode
CXNN is passed in as an explicit parameter.
-/

/-- Error taxonomy of the engine, mirroring `enum EmulationErr`. -/
inductive EmulationErr where
  | UnknownOpcode (opcode : Nat)
  | StackOverflow
  | InvalidValueInRegister (register value : Nat)
  | FileError (filename : String)
  | NoSubroutineToExit
  | InvalidKeycode
  | ProgramExited
  | InvalidRegisterReference
deriving DecidableEq, Repr

/-- Compatibility switches, mirroring `struct Quirks`. -/
structure Quirks where
  superchip_opcodes : Bool
  superchip_shift : Bool
  superchip_offset_jump : Bool
  superchip_memory : Bool
deriving DecidableEq, Repr

/-- Mutable machine state of `struct Chip8Emu`: every field except the
`quirks` configuration (which no handler ever writes, and of which only
`superchip_opcodes` is ever read - it is threaded separately so that this
can be stated). -/
structure Chip8Core where
  opcode : Nat
  memory : List Nat
  registers : List Nat
  index_register : Nat
  program_counter : Nat
  gfx : List Nat
  delay_timer : Nat
  sound_timer : Nat
  stack : List Nat
  stack_pointer : Nat
  keys : List Bool
  rpl : List Nat
  is_hi_res_mode : Bool
deriving DecidableEq, Repr

/-- Full emulator state: core machine state plus the quirk configuration. -/
structure Chip8Emu where
  core : Chip8Core
  quirks : Quirks
deriving DecidableEq, Repr

/-- Outcome of one call to `emulate_cycle`: `Ok(())` with the mutated
state, `Err(e)` with the state as mutated up to the early return, or
`crash` when the Rust code would index a `Vec` out of bounds and abort. -/
inductive CycleResult (α : Type) where
  | ok (s : α)
  | err (e : EmulationErr) (s : α)
  | crash
deriving DecidableEq, Repr

def CycleResult.map {α β : Type} (f : α → β) : CycleResult α → CycleResult β
  | .ok s => .ok (f s)
  | .err e s => .err e (f s)
  | .crash => .crash

def CycleResult.isOk {α : Type} : CycleResult α → Bool
  | .ok _ => true
  | _ => false

def CycleResult.isCrash {α : Type} : CycleResult α → Bool
  | .crash => true
  | _ => false

def CycleResult.errOf {α : Type} : CycleResult α → Option EmulationErr
  | .err e _ => some e
  | _ => none

def CycleResult.stateOf {α : Type} : CycleResult α → Option α
  | .ok s => some s
  | .err _ s => some s
  | .crash => none

/-- Rust `v[i] = x`: in bounds it updates, out of bounds it panics. -/
def vecSet (l : List Nat) (i v : Nat) : Option (List Nat) :=
  if i < l.length then some (l.set i v) else none

/-- The 80-byte font table, mirroring `fn font()`. -/
def font : List Nat :=
  [0xF0, 0x90, 0x90, 0x90, 0xF0,
   0x20, 0x60, 0x20, 0x20, 0x70,
   0xF0, 0x10, 0xF0, 0x80, 0xF0,
   0xF0, 0x10, 0xF0, 0x10, 0xF0,
   0x90, 0x90, 0xF0, 0x10, 0x10,
   0xF0, 0x80, 0xF0, 0x10, 0xF0,
   0xF0, 0x80, 0xF0, 0x90, 0xF0,
   0xF0, 0x10, 0x20, 0x40, 0x40,
   0xF0, 0x90, 0xF0, 0x90, 0xF0,
   0xF0, 0x90, 0xF0, 0x10, 0xF0,
   0xF0, 0x90, 0xF0, 0x90, 0x90,
   0xE0, 0x90, 0xE0, 0x90, 0xE0,
   0xF0, 0x80, 0x80, 0x80, 0xF0,
   0xE0, 0x90, 0x90, 0x90, 0xE0,
   0xF0, 0x80, 0xF0, 0x80, 0xF0,
   0xF0, 0x80, 0xF0, 0x80, 0x80]

/-- Power-on state, mirroring `impl Default for Chip8Emu`. -/
def chip8Default : Chip8Emu :=
  { core :=
      { opcode := 0x0000
        memory := List.replicate 4096 0x00
        registers := List.replicate 16 0x00
        index_register := 0x0000
        program_counter := 0x0200
        gfx := List.replicate (8 * 32) 0x00
        delay_timer := 0x00
        sound_timer := 0x00
        stack := List.replicate 16 0x0000
        stack_pointer := 0x0000
        keys := List.replicate 16 false
        rpl := List.replicate 8 0x00
        is_hi_res_mode := false }
    quirks :=
      { superchip_opcodes := false
        superchip_shift := false
        superchip_offset_jump := false
        superchip_memory := false } }

/-- Mirrors `fn reset`: note that (like the source) it does not touch
`rpl`, and the quirks configuration is outside the core anyway. -/
def Chip8Core.reset (s : Chip8Core) : Chip8Core :=
  { s with
    opcode := 0x0000
    memory := List.replicate 4096 0x00
    registers := List.replicate 16 0x00
    index_register := 0x0000
    program_counter := 0x0200
    gfx := List.replicate (8 * 32) 0x00
    delay_timer := 0x00
    sound_timer := 0x00
    stack := List.replicate 16 0x0000
    stack_pointer := 0x0000
    keys := List.replicate 16 false
    is_hi_res_mode := false }

/-- Mirrors `fn load_rom_from_file`, with `fs::read` abstracted away:
this is the `Ok(bytes)` branch of the source.  The Rust code computes
the tail padding as `4096 - length - 511` in `usize` arithmetic; when
that subtraction underflows (ROM longer than 3585 bytes) the release
build wraps around and the resulting gigantic `vec!` allocation aborts,
modelled as `none`. -/
def load_rom_from_file (bytes : List Nat) (s : Chip8Emu) : Option Chip8Emu :=
  if bytes.length + 511 ≤ 4096 then
    some { s with core :=
      { s.core.reset with
        memory :=
          List.replicate 80 0x00 ++ font ++ List.replicate (512 - 160) 0x00 ++
          bytes ++ List.replicate (4096 - bytes.length - 511) 0x00 } }
  else
    none

/-- Instruction field `x` = bits 8-11, as in `emulate_cycle`. -/
def opXfield (opcode : Nat) : Nat := (opcode &&& 0x0F00) >>> 8

/-- Instruction field `y` = bits 4-7. -/
def opYfield (opcode : Nat) : Nat := (opcode &&& 0x00F0) >>> 4

/-- Instruction field `n` = bits 0-3. -/
def opNfield (opcode : Nat) : Nat := opcode &&& 0x000F

/-- Instruction field `nn` = bits 0-7. -/
def opNNfield (opcode : Nat) : Nat := opcode &&& 0x00FF

/-- Instruction field `nnn` = bits 0-11. -/
def opNNNfield (opcode : Nat) : Nat := opcode &&& 0x0FFF

/-- The DXYN row loop (`for row in 0..n`), with the collision flag
threaded as an accumulator: the source writes `registers[0xF] = 0x01`
at the moment of collision, but since the register file is neither read
nor otherwise written inside the loop this is observably the final
`vecSet` of the flag performed by the caller. `row` is the current row
index and the first `Nat` argument of the recursion counts the rows
still to be drawn. -/
def drawRow (mem : List Nat) (ir cx cy row : Nat) (g : List Nat) (vf : Nat) :
    Option (List Nat × Nat) :=
  match mem.get? ((ir + row) % 65536) with
  | none => none
  | some row_data =>
    let sbi := (cy * 8 + cx / 8 + row * 8) % 256
    let shift := cx % 8
    match g.get? sbi with
    | none => none
    | some initial =>
      let g1 := g.set sbi (initial ^^^ (row_data >>> shift))
      let step2 : Option (List Nat) :=
        if shift ≠ 0 ∧ cx < 56 then
          match g1.get? (sbi + 1) with
          | none => none
          | some cur =>
            some (g1.set (sbi + 1) (cur ^^^ ((row_data <<< (8 - shift)) % 256)))
        else some g1
      match step2 with
      | none => none
      | some g2 =>
        some (g2, if ((initial <<< shift) % 256) &&& row_data ≠ 0 then 1 else vf)

def drawRows (mem : List Nat) (ir cx cy : Nat) :
    Nat → Nat → List Nat × Nat → Option (List Nat × Nat)
  | _row, 0, acc => some acc
  | row, k + 1, (g, vf) =>
    match drawRow mem ir cx cy row g vf with
    | none => none
    | some acc1 => drawRows mem ir cx cy (row + 1) k acc1

/-- The FX55 loop `for offset in 0..=x`: the counter argument is the
number of registers still to store (called with `x + 1`). -/
def store_regs (registers : List Nat) (ir : Nat) :
    Nat → Nat → List Nat → Option (List Nat)
  | _off, 0, mem => some mem
  | off, k + 1, mem =>
    match registers.get? off with
    | none => none
    | some v =>
      match vecSet mem ((ir + off) % 65536) v with
      | none => none
      | some m1 => store_regs registers ir (off + 1) k m1

/-- The FX65 loop `for offset in 0..=x`. -/
def load_regs (mem : List Nat) (ir : Nat) :
    Nat → Nat → List Nat → Option (List Nat)
  | _off, 0, registers => some registers
  | off, k + 1, registers =>
    match mem.get? ((ir + off) % 65536) with
    | none => none
    | some v =>
      match vecSet registers off v with
      | none => none
      | some r1 => load_regs mem ir (off + 1) k r1

/-- The FX29 table: `match self.registers[x]` with sixteen literal arms;
any other register value falls to the error arm (`none` here). -/
def font_position (v : Nat) : Option Nat :=
  if v = 0x0 then some 0x0050
  else if v = 0x1 then some 0x0055
  else if v = 0x2 then some 0x005A
  else if v = 0x3 then some 0x005F
  else if v = 0x4 then some 0x0064
  else if v = 0x5 then some 0x0069
  else if v = 0x6 then some 0x006E
  else if v = 0x7 then some 0x0073
  else if v = 0x8 then some 0x0078
  else if v = 0x9 then some 0x007D
  else if v = 0xA then some 0x0082
  else if v = 0xB then some 0x0087
  else if v = 0xC then some 0x008C
  else if v = 0xD then some 0x0091
  else if v = 0xE then some 0x0096
  else if v = 0xF then some 0x009B
  else none

/-- `dst[0..][..=x].copy_from_slice(&src[0..=x])` with `k = x + 1`. -/
def copyPrefix (src dst : List Nat) (k : Nat) : List Nat :=
  src.take k ++ dst.drop k

/-- Inner column loop of the 00FB scroll (`for col in 0..8`), carrying
the nibble `rem` from the previous chunk.  The counter is the number of
columns still to process. -/
def scrollRowStep (row : Nat) :
    Nat → Nat → Option Nat → List Nat → Option (List Nat)
  | _col, 0, _rem, g => some g
  | col, k + 1, rem, g =>
    match g.get? (row * 8 + col) with
    | none => none
    | some chunk =>
      let new_rem := chunk &&& 0x0F
      let newVal :=
        match rem with
        | some r => (chunk >>> 4) ||| ((r <<< 4) % 256)
        | none => chunk >>> 4
      match vecSet g (row * 8 + col) newVal with
      | none => none
      | some g1 => scrollRowStep row (col + 1) k (some new_rem) g1

/-- Outer row loop of the 00FB scroll (`for row in 0..32`). -/
def scrollRows : Nat → Nat → List Nat → Option (List Nat)
  | _row, 0, g => some g
  | row, k + 1, g =>
    match scrollRowStep row 0 8 none g with
    | none => none
    | some g1 => scrollRows (row + 1) k g1

/-- Mirrors `fn handle_superchip_opcode`.  Note the source's second
RPL arm tests `opcode & 0xF0FF == 0xF075` again (instead of `0xF085`),
so it is dead code; it is reproduced verbatim here. -/
def handle_superchip_opcode (s : Chip8Core) (opcode x _y n _nn _nnn : Nat) :
    CycleResult Chip8Core :=
  if 0x00C0 ≤ opcode ∧ opcode ≤ 0x00CF then
    .ok { s with gfx := List.replicate (8 * n) 0x00 ++ s.gfx }
  else if opcode = 0x00FB then
    match scrollRows 0 32 s.gfx with
    | none => .crash
    | some g => .ok { s with gfx := g }
  else if opcode = 0x00FD then
    .err .ProgramExited s
  else if opcode = 0x00FE then
    .ok s
  else if opcode = 0x00FF then
    .ok s
  else if opcode &&& 0xF0FF = 0xF075 then
    if 7 < x then .err .InvalidRegisterReference s
    else if x < s.registers.length then
      if x < s.rpl.length then
        .ok { s with rpl := copyPrefix s.registers s.rpl (x + 1) }
      else .crash
    else .crash
  else if opcode &&& 0xF0FF = 0xF075 then
    if 7 < x then .err .InvalidRegisterReference s
    else if x < s.rpl.length then
      if x < s.registers.length then
        .ok { s with registers := copyPrefix s.rpl s.registers (x + 1) }
      else .crash
    else .crash
  else
    .err (.UnknownOpcode opcode) s

/-- The inner `match n` of the 0x8XYN arm. -/
def exec8 (s : Chip8Core) (x y n : Nat) : CycleResult Chip8Core :=
  if n = 0 then
    match s.registers.get? y with
    | none => .crash
    | some ry =>
      match vecSet s.registers x ry with
      | none => .crash
      | some r1 => .ok { s with registers := r1 }
  else if n = 1 then
    match s.registers.get? x, s.registers.get? y with
    | some rx, some ry =>
      match vecSet s.registers x (rx ||| ry) with
      | none => .crash
      | some r1 => .ok { s with registers := r1 }
    | _, _ => .crash
  else if n = 2 then
    match s.registers.get? x, s.registers.get? y with
    | some rx, some ry =>
      match vecSet s.registers x (rx &&& ry) with
      | none => .crash
      | some r1 => .ok { s with registers := r1 }
    | _, _ => .crash
  else if n = 3 then
    match s.registers.get? x, s.registers.get? y with
    | some rx, some ry =>
      match vecSet s.registers x (rx ^^^ ry) with
      | none => .crash
      | some r1 => .ok { s with registers := r1 }
    | _, _ => .crash
  else if n = 4 then
    match s.registers.get? x, s.registers.get? y with
    | some rx, some ry =>
      match vecSet s.registers x ((rx + ry) % 256) with
      | none => .crash
      | some r1 =>
        match vecSet r1 15 (if 256 ≤ rx + ry then 1 else 0) with
        | none => .crash
        | some r2 => .ok { s with registers := r2 }
    | _, _ => .crash
  else if n = 5 then
    match s.registers.get? x, s.registers.get? y with
    | some rx, some ry =>
      match vecSet s.registers x ((rx + 256 - ry) % 256) with
      | none => .crash
      | some r1 =>
        match vecSet r1 15 (if rx < ry then 0 else 1) with
        | none => .crash
        | some r2 => .ok { s with registers := r2 }
    | _, _ => .crash
  else if n = 6 then
    match s.registers.get? y with
    | none => .crash
    | some ry =>
      match vecSet s.registers x ry with
      | none => .crash
      | some r1 =>
        match r1.get? x with
        | none => .crash
        | some rx1 =>
          match vecSet r1 x (rx1 >>> 1) with
          | none => .crash
          | some r2 =>
            match vecSet r2 15 (rx1 % 2) with
            | none => .crash
            | some r3 => .ok { s with registers := r3 }
  else if n = 7 then
    match s.registers.get? x, s.registers.get? y with
    | some rx, some ry =>
      match vecSet s.registers x ((ry + 256 - rx) % 256) with
      | none => .crash
      | some r1 =>
        match vecSet r1 15 (if ry < rx then 0 else 1) with
        | none => .crash
        | some r2 => .ok { s with registers := r2 }
    | _, _ => .crash
  else if n = 0xE then
    match s.registers.get? y with
    | none => .crash
    | some ry =>
      match vecSet s.registers x ry with
      | none => .crash
      | some r1 =>
        match r1.get? x with
        | none => .crash
        | some rx1 =>
          match vecSet r1 x ((rx1 <<< 1) % 256) with
          | none => .crash
          | some r2 =>
            match vecSet r2 15 (if 128 ≤ rx1 then 1 else 0) with
            | none => .crash
            | some r3 => .ok { s with registers := r3 }
  else
    .err (.UnknownOpcode s.opcode) s

/-- The `match self.opcode` dispatch of `emulate_cycle`, executed after
the fetch has latched `opcode` and advanced the program counter.  The
Rust range patterns and the `opcode & 0xF0FF` guards are reproduced in
source order as a chain of conditionals. -/
def execOpcode (superchip : Bool) (rand : Nat) (s : Chip8Core) :
    CycleResult Chip8Core :=
  let opcode := s.opcode
  let x := opXfield opcode
  let y := opYfield opcode
  let n := opNfield opcode
  let nn := opNNfield opcode
  let nnn := opNNNfield opcode
  if opcode = 0x00E0 then
    .ok { s with gfx := List.replicate (8 * 32) 0x00 }
  else if opcode = 0x00EE then
    match s.stack.get? s.stack_pointer with
    | none => .crash
    | some ret =>
      let s1 := { s with program_counter := ret }
      if s1.stack_pointer = 0 then .err .NoSubroutineToExit s1
      else .ok { s1 with stack_pointer := s1.stack_pointer - 1 }
  else if 0x1000 ≤ opcode ∧ opcode ≤ 0x1FFF then
    .ok { s with program_counter := nnn }
  else if 0x2000 ≤ opcode ∧ opcode ≤ 0x2FFF then
    let sp := (s.stack_pointer + 1) % 65536
    match vecSet s.stack sp s.program_counter with
    | none => .crash
    | some st =>
      .ok { s with stack_pointer := sp, stack := st, program_counter := nnn }
  else if 0x3000 ≤ opcode ∧ opcode ≤ 0x3FFF then
    match s.registers.get? x with
    | none => .crash
    | some vx =>
      if vx = nn then .ok { s with program_counter := (s.program_counter + 2) % 65536 }
      else .ok s
  else if 0x4000 ≤ opcode ∧ opcode ≤ 0x4FFF then
    match s.registers.get? x with
    | none => .crash
    | some vx =>
      if vx ≠ nn then .ok { s with program_counter := (s.program_counter + 2) % 65536 }
      else .ok s
  else if 0x5000 ≤ opcode ∧ opcode ≤ 0x5FF0 then
    match s.registers.get? x, s.registers.get? y with
    | some vx, some vy =>
      if vx = vy then .ok { s with program_counter := (s.program_counter + 2) % 65536 }
      else .ok s
    | _, _ => .crash
  else if 0x6000 ≤ opcode ∧ opcode ≤ 0x6FFF then
    match vecSet s.registers x nn with
    | none => .crash
    | some r1 => .ok { s with registers := r1 }
  else if 0x7000 ≤ opcode ∧ opcode ≤ 0x7FFF then
    match s.registers.get? x with
    | none => .crash
    | some vx =>
      match vecSet s.registers x ((vx + nn) % 256) with
      | none => .crash
      | some r1 => .ok { s with registers := r1 }
  else if 0x8000 ≤ opcode ∧ opcode ≤ 0x8FFF then
    exec8 s x y n
  else if 0x9000 ≤ opcode ∧ opcode ≤ 0x9FF0 then
    match s.registers.get? x, s.registers.get? y with
    | some vx, some vy =>
      if vx ≠ vy then .ok { s with program_counter := (s.program_counter + 2) % 65536 }
      else .ok s
    | _, _ => .crash
  else if 0xA000 ≤ opcode ∧ opcode ≤ 0xAFFF then
    .ok { s with index_register := nnn }
  else if 0xB000 ≤ opcode ∧ opcode ≤ 0xBFFF then
    match s.registers.get? 0 with
    | none => .crash
    | some r0 => .ok { s with program_counter := (nnn + r0) % 65536 }
  else if 0xC000 ≤ opcode ∧ opcode ≤ 0xCFFF then
    match vecSet s.registers x ((rand % 256) &&& nn) with
    | none => .crash
    | some r1 => .ok { s with registers := r1 }
  else if 0xD000 ≤ opcode ∧ opcode ≤ 0xDFFF then
    match s.registers.get? x, s.registers.get? y with
    | some vx, some vy =>
      let cx := vx &&& 0x3F
      let cy := vy &&& 0x1F
      match vecSet s.registers 15 0 with
      | none => .crash
      | some r1 =>
        match drawRows s.memory s.index_register cx cy 0 n (s.gfx, 0) with
        | none => .crash
        | some (g, vf) =>
          match vecSet r1 15 vf with
          | none => .crash
          | some r2 =>
            if g.length % 8 = 0 then .ok { s with registers := r2, gfx := g }
            else .crash
    | _, _ => .crash
  else if opcode &&& 0xF0FF = 0xE09E then
    match s.registers.get? x with
    | none => .crash
    | some vx =>
      match s.keys.get? (vx &&& 0x0F) with
      | none => .crash
      | some pressed =>
        if pressed then .ok { s with program_counter := (s.program_counter + 2) % 65536 }
        else .ok s
  else if opcode &&& 0xF0FF = 0xE0A1 then
    match s.registers.get? x with
    | none => .crash
    | some vx =>
      match s.keys.get? (vx &&& 0x0F) with
      | none => .crash
      | some pressed =>
        if pressed then .ok s
        else .ok { s with program_counter := (s.program_counter + 2) % 65536 }
  else if opcode &&& 0xF0FF = 0xF007 then
    match vecSet s.registers x s.delay_timer with
    | none => .crash
    | some r1 => .ok { s with registers := r1 }
  else if opcode &&& 0xF0FF = 0xF015 then
    match s.registers.get? x with
    | none => .crash
    | some vx => .ok { s with delay_timer := vx }
  else if opcode &&& 0xF0FF = 0xF018 then
    match s.registers.get? x with
    | none => .crash
    | some vx => .ok { s with sound_timer := vx }
  else if opcode &&& 0xF0FF = 0xF01E then
    match s.registers.get? x with
    | none => .crash
    | some vx =>
      let ir1 := (s.index_register + vx) % 65536
      if 4095 < ir1 then
        match vecSet s.registers 15 1 with
        | none => .crash
        | some r1 => .ok { s with index_register := ir1 - 4096, registers := r1 }
      else
        match vecSet s.registers 15 0 with
        | none => .crash
        | some r1 => .ok { s with index_register := ir1, registers := r1 }
  else if opcode &&& 0xF0FF = 0xF00A then
    if s.keys.any (fun b => b) then
      match vecSet s.registers x ((s.keys.findIdx (fun b => b)) % 256) with
      | none => .crash
      | some r1 => .ok { s with registers := r1 }
    else
      .ok { s with program_counter := (s.program_counter + 65534) % 65536 }
  else if opcode &&& 0xF0FF = 0xF029 then
    match s.registers.get? x with
    | none => .crash
    | some vx =>
      match font_position vx with
      | some pos => .ok { s with index_register := pos }
      | none => .err (.InvalidValueInRegister x vx) s
  else if opcode &&& 0xF0FF = 0xF033 then
    match s.registers.get? x with
    | none => .crash
    | some vx =>
      match vecSet s.memory s.index_register (vx / 100) with
      | none => .crash
      | some m1 =>
        match vecSet m1 (s.index_register + 1) ((vx % 100) / 10) with
        | none => .crash
        | some m2 =>
          match vecSet m2 (s.index_register + 2) (vx % 10) with
          | none => .crash
          | some m3 => .ok { s with memory := m3 }
  else if opcode &&& 0xF0FF = 0xF055 then
    match store_regs s.registers s.index_register 0 (x + 1) s.memory with
    | none => .crash
    | some m1 => .ok { s with memory := m1 }
  else if opcode &&& 0xF0FF = 0xF065 then
    match load_regs s.memory s.index_register 0 (x + 1) s.registers with
    | none => .crash
    | some r1 => .ok { s with registers := r1 }
  else
    if superchip then handle_superchip_opcode s opcode x y n nn nnn
    else .err (.UnknownOpcode opcode) s

/-- Mirrors `fn emulate_cycle` on the core state: fetch two bytes at the
program counter (big-endian), latch the opcode, advance the counter by 2
(wrapping u16), then dispatch. -/
def emulateCycleCore (superchip : Bool) (rand : Nat) (s : Chip8Core) :
    CycleResult Chip8Core :=
  match s.memory.get? s.program_counter with
  | none => .crash
  | some first_byte =>
    match s.memory.get? ((s.program_counter + 1) % 65536) with
    | none => .crash
    | some second_byte =>
      execOpcode superchip rand
        { s with
          opcode := (first_byte <<< 8) ||| second_byte
          program_counter := (s.program_counter + 2) % 65536 }

/-- Mirrors `pub fn emulate_cycle`: of the quirk configuration only the
`superchip_opcodes` flag ever reaches the execution path. -/
def emulate_cycle (rand : Nat) (s : Chip8Emu) : CycleResult Chip8Emu :=
  (emulateCycleCore s.quirks.superchip_opcodes rand s.core).map
    (fun c => { core := c, quirks := s.quirks })

/-- Opcodes for which the base (non-SUPER-CHIP) dispatch has a handler
that is not the UnknownOpcode fallthrough, read off the `match` arms of
`emulate_cycle` (for 0x8XYN only the nine implemented sub-opcodes). -/
def isHandledBase (opcode : Nat) : Prop :=
  opcode = 0x00E0 ∨ opcode = 0x00EE ∨
  (0x1000 ≤ opcode ∧ opcode ≤ 0x1FFF) ∨
  (0x2000 ≤ opcode ∧ opcode ≤ 0x2FFF) ∨
  (0x3000 ≤ opcode ∧ opcode ≤ 0x3FFF) ∨
  (0x4000 ≤ opcode ∧ opcode ≤ 0x4FFF) ∨
  (0x5000 ≤ opcode ∧ opcode ≤ 0x5FF0) ∨
  (0x6000 ≤ opcode ∧ opcode ≤ 0x6FFF) ∨
  (0x7000 ≤ opcode ∧ opcode ≤ 0x7FFF) ∨
  (0x8000 ≤ opcode ∧ opcode ≤ 0x8FFF ∧
    (opNfield opcode = 0 ∨ opNfield opcode = 1 ∨ opNfield opcode = 2 ∨
     opNfield opcode = 3 ∨ opNfield opcode = 4 ∨ opNfield opcode = 5 ∨
     opNfield opcode = 6 ∨ opNfield opcode = 7 ∨ opNfield opcode = 0xE)) ∨
  (0x9000 ≤ opcode ∧ opcode ≤ 0x9FF0) ∨
  (0xA000 ≤ opcode ∧ opcode ≤ 0xAFFF) ∨
  (0xB000 ≤ opcode ∧ opcode ≤ 0xBFFF) ∨
  (0xC000 ≤ opcode ∧ opcode ≤ 0xCFFF) ∨
  (0xD000 ≤ opcode ∧ opcode ≤ 0xDFFF) ∨
  opcode &&& 0xF0FF = 0xE09E ∨ opcode &&& 0xF0FF = 0xE0A1 ∨
  opcode &&& 0xF0FF = 0xF007 ∨ opcode &&& 0xF0FF = 0xF015 ∨
  opcode &&& 0xF0FF = 0xF018 ∨ opcode &&& 0xF0FF = 0xF01E ∨
  opcode &&& 0xF0FF = 0xF00A ∨ opcode &&& 0xF0FF = 0xF029 ∨
  opcode &&& 0xF0FF = 0xF033 ∨ opcode &&& 0xF0FF = 0xF055 ∨
  opcode &&& 0xF0FF = 0xF065

/-- Opcodes for which `handle_superchip_opcode` has a non-fallthrough
arm (the duplicated `0xF075` guard contributes only once). -/
def isHandledSuper (opcode : Nat) : Prop :=
  (0x00C0 ≤ opcode ∧ opcode ≤ 0x00CF) ∨ opcode = 0x00FB ∨
  opcode = 0x00FD ∨ opcode = 0x00FE ∨ opcode = 0x00FF ∨
  opcode &&& 0xF0FF = 0xF075

/-- XOR contribution that the DXYN row loop makes to framebuffer byte
`i`, read off `drawRows`: the direct byte of each row lands at `sbi`,
the spill-over at `sbi + 1` when the sprite is not byte-aligned and not
in the last column byte. -/
def stepContrib (mem : List Nat) (ir cx cy row i : Nat) : Nat :=
  let d := mem.getD ((ir + row) % 65536) 0
  let sbi := (cy * 8 + cx / 8 + row * 8) % 256
  let shift := cx % 8
  (if sbi = i then d >>> shift else 0) ^^^
  (if sbi + 1 = i ∧ shift ≠ 0 ∧ cx < 56 then (d <<< (8 - shift)) % 256 else 0)

def contribRows (mem : List Nat) (ir cx cy i : Nat) : Nat → Nat → Nat
  | _row, 0 => 0
  | row, k + 1 =>
    stepContrib mem ir cx cy row i ^^^ contribRows mem ir cx cy i (row + 1) k

/-- Two consecutive engine cycles (used to state the double-draw law). -/
def runTwo (rand : Nat) (s : Chip8Emu) : CycleResult Chip8Emu :=
  match emulate_cycle rand s with
  | .ok s1 => emulate_cycle rand s1
  | r => r

/-- Small machine state used to build concrete test inputs: standard
register / stack / keypad / RPL sizes, a 256-byte framebuffer, and an
initially empty memory that each test replaces by a tiny program. -/
def baseCore : Chip8Core :=
  { opcode := 0
    memory := []
    registers := List.replicate 16 0
    index_register := 0
    program_counter := 0
    gfx := List.replicate 256 0
    delay_timer := 0
    sound_timer := 0
    stack := List.replicate 16 0
    stack_pointer := 0
    keys := List.replicate 16 false
    rpl := List.replicate 8 0
    is_hi_res_mode := false }

/-- All quirks off. -/
def baseQuirks : Quirks :=
  { superchip_opcodes := false
    superchip_shift := false
    superchip_offset_jump := false
    superchip_memory := false }

/-- Machine about to execute its sixteenth consecutive `2NNN` push: the
stack pointer already sits at 15, so the push writes `stack[16]`. -/
def pushOverflowState : Chip8Emu :=
  ⟨{ baseCore with memory := [0x22, 0x00], stack_pointer := 15 }, baseQuirks⟩

/-- Machine whose next opcode is 0xF085 (restore V0 from the RPL flag
store) with SUPER-CHIP opcodes enabled and `RPL[0] = 7`. -/
def fx85State : Chip8Emu :=
  ⟨{ baseCore with memory := [0xF0, 0x85], rpl := (List.replicate 8 0).set 0 7 },
   { baseQuirks with superchip_opcodes := true }⟩

/-- Machine whose next opcode is 0xF029 with `V0 = 0x10`: a register
value with no font-table arm. -/
def fontOutOfRangeState : Chip8Emu :=
  ⟨{ baseCore with memory := [0xF0, 0x29],
                   registers := (List.replicate 16 0).set 0 16 }, baseQuirks⟩

/-- Machine whose next opcode is 0x0001, unknown in both sets. -/
def unknownOpcodeState : Chip8Emu :=
  ⟨{ baseCore with memory := [0x00, 0x01] }, baseQuirks⟩

/-- Machine about to run `8F14` (VF ← VF + V1) with VF = V1 = 1. -/
def addIntoVFState : Chip8Emu :=
  ⟨{ baseCore with memory := [0x8F, 0x14],
                   registers := ((List.replicate 16 0).set 15 1).set 1 1 },
   baseQuirks⟩

/-- Machine that draws the 1-row sprite 0x07 at column 3 twice: the
sprite byte lands entirely in the spill-over byte of the framebuffer
(`0x07 >> 3 = 0`), which the collision check never inspects. -/
def spillDrawState : Chip8Emu :=
  ⟨{ baseCore with memory := [0xD0, 0x11, 0xD0, 0x11, 0x07],
                   registers := (List.replicate 16 0).set 0 3,
                   index_register := 4 },
   baseQuirks⟩

/-- The state `spillDrawState` reaches after drawing its sprite twice:
framebuffer restored, but VF (the last register) left at 0. -/
def spillDrawStateAfter : Chip8Emu :=
  ⟨{ baseCore with memory := [0xD0, 0x11, 0xD0, 0x11, 0x07],
                   registers := (List.replicate 16 0).set 0 3,
                   index_register := 4,
                   opcode := 0xD011, program_counter := 4 },
   baseQuirks⟩

/-- Machine that draws the byte-aligned 1-row sprite 0x80 at (0, 0)
twice (program `D011 D011`, sprite at address 4). -/
def alignedDrawState : Chip8Emu :=
  ⟨{ baseCore with memory := [0xD0, 0x11, 0xD0, 0x11, 0x80],
                   index_register := 4 },
   baseQuirks⟩

/-- The machine obtained by loading the one-byte ROM `[0xAB]`. -/
def loadedDemo : Chip8Emu :=
  (load_rom_from_file [0xAB] chip8Default).getD chip8Default

/-- Quirk configuration with the three behaviour flags raised but the
SUPER-CHIP opcode set still disabled. -/
def flippedQuirks : Quirks :=
  { superchip_opcodes := false
    superchip_shift := true
    superchip_offset_jump := true
    superchip_memory := true }

/-! ## Helper lemmas about the instruction-field arithmetic -/

theorem and_nib_shift (x k : Nat) : x &&& (15 <<< k) = x / 2 ^ k % 16 * 2 ^ k := by
  have h1 : x &&& (15 <<< k) = ((x >>> k) &&& 15) <<< k := by
    apply Nat.eq_of_testBit_eq
    intro j
    simp only [Nat.testBit_and, Nat.testBit_shiftLeft, Nat.testBit_shiftRight]
    by_cases hj : k ≤ j
    · have hkj : k + (j - k) = j := by omega
      simp only [ge_iff_le, hj, decide_True, Bool.true_and, hkj]
    · simp only [ge_iff_le, hj, decide_False, Bool.false_and, Bool.and_false]
  rw [h1]
  have h15 : (15 : Nat) = 2 ^ 4 - 1 := by norm_num
  rw [h15, Nat.and_pow_two_sub_one_eq_mod, Nat.shiftRight_eq_div_pow, Nat.shiftLeft_eq]

theorem and_000f (x : Nat) : x &&& 0x000F = x % 16 := by
  have h15 : (0x000F : Nat) = 2 ^ 4 - 1 := by norm_num
  rw [h15, Nat.and_pow_two_sub_one_eq_mod]

theorem and_00ff (x : Nat) : x &&& 0x00FF = x % 256 := by
  have h : (0x00FF : Nat) = 2 ^ 8 - 1 := by norm_num
  rw [h, Nat.and_pow_two_sub_one_eq_mod]

theorem and_0fff (x : Nat) : x &&& 0x0FFF = x % 4096 := by
  have h : (0x0FFF : Nat) = 2 ^ 12 - 1 := by norm_num
  rw [h, Nat.and_pow_two_sub_one_eq_mod]

theorem and_0f00 (x : Nat) : x &&& 0x0F00 = x / 256 % 16 * 256 := by
  have h : (0x0F00 : Nat) = 15 <<< 8 := by decide
  rw [h, and_nib_shift]
  norm_num

theorem and_00f0 (x : Nat) : x &&& 0x00F0 = x / 16 % 16 * 16 := by
  have h : (0x00F0 : Nat) = 15 <<< 4 := by decide
  rw [h, and_nib_shift]
  norm_num

theorem and_f000 (x : Nat) : x &&& 0xF000 = x / 4096 % 16 * 4096 := by
  have h : (0xF000 : Nat) = 15 <<< 12 := by decide
  rw [h, and_nib_shift]
  norm_num

theorem nat_and_or_distrib_left (x a b : Nat) :
    x &&& (a ||| b) = (x &&& a) ||| (x &&& b) := by
  apply Nat.eq_of_testBit_eq
  intro j
  simp only [Nat.testBit_and, Nat.testBit_or, Bool.and_or_distrib_left]

theorem and_f0ff (x : Nat) : x &&& 0xF0FF = x / 4096 % 16 * 4096 + x % 256 := by
  have h : (0xF0FF : Nat) = 0xF000 ||| 0x00FF := by decide
  rw [h, nat_and_or_distrib_left, and_f000, and_00ff]
  have hlt : x % 256 < 2 ^ 12 := by
    have := Nat.mod_lt x (y := 256) (by norm_num)
    omega
  have := Nat.mul_add_lt_is_or hlt (x / 4096 % 16)
  have hcomm : x / 4096 % 16 * 4096 = 2 ^ 12 * (x / 4096 % 16) := by ring
  rw [hcomm, this]

theorem opXfield_eq (x : Nat) : opXfield x = x / 256 % 16 := by
  unfold opXfield
  rw [and_0f00, Nat.shiftRight_eq_div_pow]
  norm_num

theorem opYfield_eq (x : Nat) : opYfield x = x / 16 % 16 := by
  unfold opYfield
  rw [and_00f0, Nat.shiftRight_eq_div_pow]
  norm_num

theorem opNfield_eq (x : Nat) : opNfield x = x % 16 := and_000f x

theorem opNNfield_eq (x : Nat) : opNNfield x = x % 256 := and_00ff x

theorem opNNNfield_eq (x : Nat) : opNNNfield x = x % 4096 := and_0fff x

theorem fetch_byte_or (hi lo : Nat) (hlo : lo < 256) :
    (hi <<< 8) ||| lo = hi * 256 + lo := by
  have hlt : lo < 2 ^ 8 := by omega
  have h := Nat.mul_add_lt_is_or hlt hi
  rw [Nat.shiftLeft_eq, Nat.mul_comm hi (2 ^ 8), ← h]

theorem emulateCycleCore_fetch (b : Bool) (rand : Nat) (s : Chip8Core) (hi lo : Nat)
    (h1 : s.memory.get? s.program_counter = some hi)
    (h2 : s.memory.get? ((s.program_counter + 1) % 65536) = some lo) :
    emulateCycleCore b rand s =
      execOpcode b rand
        { s with opcode := (hi <<< 8) ||| lo,
                 program_counter := (s.program_counter + 2) % 65536 } := by
  unfold emulateCycleCore
  rw [h1, h2]

/-! ## Arm lemmas for the dispatcher -/

theorem execOpcode_00ee (b : Bool) (rand : Nat) (s : Chip8Core) (hop : s.opcode = 0x00EE) :
    execOpcode b rand s =
      (match s.stack.get? s.stack_pointer with
       | none => .crash
       | some ret =>
         if s.stack_pointer = 0 then
           .err .NoSubroutineToExit { s with program_counter := ret }
         else
           .ok { s with program_counter := ret,
                        stack_pointer := s.stack_pointer - 1 }) := by
  unfold execOpcode
  rw [hop]
  norm_num

/-! ## C3: 00EE pops into the program counter, then checks the pointer -/

/-- C3: executing opcode 00EE first pops `stack[sp]` into the program
counter; if the stack pointer was already 0 the cycle fails with
`NoSubroutineToExit` with the program counter already overwritten and
the pointer still 0, and otherwise it decrements the pointer and
succeeds. -/
theorem c3_00ee_pop_then_check (rand : Nat) (s : Chip8Emu) (v : Nat)
    (h1 : s.core.memory.get? s.core.program_counter = some 0x00)
    (h2 : s.core.memory.get? ((s.core.program_counter + 1) % 65536) = some 0xEE)
    (h3 : s.core.stack.get? s.core.stack_pointer = some v) :
    (s.core.stack_pointer = 0 →
      emulate_cycle rand s =
        .err .NoSubroutineToExit
          ⟨{ s.core with opcode := 0x00EE, program_counter := v }, s.quirks⟩) ∧
    (s.core.stack_pointer ≠ 0 →
      emulate_cycle rand s =
        .ok ⟨{ s.core with opcode := 0x00EE, program_counter := v,
                           stack_pointer := s.core.stack_pointer - 1 },
             s.quirks⟩) := by
  have hf := emulateCycleCore_fetch s.quirks.superchip_opcodes rand s.core 0x00 0xEE h1 h2
  have hor : ((0x00 : Nat) <<< 8) ||| 0xEE = 0x00EE := by decide
  rw [hor] at hf
  unfold emulate_cycle
  rw [hf, execOpcode_00ee _ _ _ rfl]
  dsimp only
  rw [h3]
  dsimp only
  constructor
  · intro hsp
    rw [if_pos hsp]
    simp only [CycleResult.map]
  · intro hsp
    rw [if_neg hsp]
    simp only [CycleResult.map]

/-- Witness for C3 at a concrete machine: a two-byte program `00 EE`
with an empty call stack reports `NoSubroutineToExit` after having
already loaded `stack[0] = 0` into the program counter. -/
theorem c3_00ee_pop_then_check_witness :
    emulate_cycle 0 ⟨{ baseCore with memory := [0x00, 0xEE] }, baseQuirks⟩ =
      .err .NoSubroutineToExit
        ⟨{ baseCore with memory := [0x00, 0xEE], opcode := 0x00EE,
                         program_counter := 0 }, baseQuirks⟩ := by
  exact (c3_00ee_pop_then_check 0 ⟨{ baseCore with memory := [0x00, 0xEE] }, baseQuirks⟩ 0
    (by decide) (by decide) (by decide)).1 rfl

/-! ## C1: the cycle is not panic-free -/

/-- Counterexample for C1: with the stack pointer at 15 (after fifteen
pushes), fetching a `2NNN` opcode makes `emulate_cycle` write
`stack[16]` on a 16-element stack - an out-of-bounds panic, not a typed
`EmulationErr`. -/
theorem c1_counterexample : emulate_cycle 0 pushOverflowState = .crash := by
  decide

theorem execOpcode_2nnn (b : Bool) (rand : Nat) (s : Chip8Core)
    (hop1 : 0x2000 ≤ s.opcode) (hop2 : s.opcode ≤ 0x2FFF) :
    execOpcode b rand s =
      (match vecSet s.stack ((s.stack_pointer + 1) % 65536) s.program_counter with
       | none => .crash
       | some st =>
         .ok { s with stack_pointer := (s.stack_pointer + 1) % 65536,
                      stack := st,
                      program_counter := opNNNfield s.opcode }) := by
  unfold execOpcode
  rw [if_neg (by omega : ¬(s.opcode = 0x00E0)),
      if_neg (by omega : ¬(s.opcode = 0x00EE)),
      if_neg (by omega : ¬(0x1000 ≤ s.opcode ∧ s.opcode ≤ 0x1FFF)),
      if_pos (⟨hop1, hop2⟩ : 0x2000 ≤ s.opcode ∧ s.opcode ≤ 0x2FFF)]

/-- C1 amended: `emulate_cycle` is not panic-free.  From any state whose
stack has the standard 16 slots and whose stack pointer has reached 15
(or more, short of the u16 wrap), fetching any `2NNN` opcode makes the
push index `stack[sp + 1]` out of bounds and the process aborts instead
of returning a typed `EmulationErr`. -/
theorem c1_amended_2nnn_push_panics (rand : Nat) (s : Chip8Emu) (b c d : Nat)
    (hb : b < 16) (hc : c < 16) (hd : d < 16)
    (h1 : s.core.memory.get? s.core.program_counter = some (0x20 + b))
    (h2 : s.core.memory.get? ((s.core.program_counter + 1) % 65536) = some (c * 16 + d))
    (hsp : 15 ≤ s.core.stack_pointer) (hsp2 : s.core.stack_pointer < 65535)
    (hst : s.core.stack.length = 16) :
    emulate_cycle rand s = .crash := by
  have hf := emulateCycleCore_fetch s.quirks.superchip_opcodes rand s.core
    (0x20 + b) (c * 16 + d) h1 h2
  rw [fetch_byte_or (0x20 + b) (c * 16 + d) (by omega)] at hf
  unfold emulate_cycle
  rw [hf, execOpcode_2nnn _ _ _ (by dsimp only; omega) (by dsimp only; omega)]
  dsimp only
  have hv : vecSet s.core.stack ((s.core.stack_pointer + 1) % 65536)
      ((s.core.program_counter + 2) % 65536) = none := by
    unfold vecSet
    rw [hst, if_neg (by omega : ¬((s.core.stack_pointer + 1) % 65536 < 16))]
  rw [hv]
  rfl

/-- Witness for the amended C1 at a concrete machine: opcode 0x2ABC
with the stack pointer at 15 crashes. -/
theorem c1_amended_2nnn_push_panics_witness :
    emulate_cycle 0
      ⟨{ baseCore with memory := [0x2A, 0xBC], stack_pointer := 15 }, baseQuirks⟩ =
      .crash :=
  c1_amended_2nnn_push_panics 0
    ⟨{ baseCore with memory := [0x2A, 0xBC], stack_pointer := 15 }, baseQuirks⟩
    10 11 12 (by norm_num) (by norm_num) (by norm_num)
    (by decide) (by decide) (by decide) (by decide) (by decide)

/-! ## C4: the loader rebuilds a 4097-byte memory, not 4096 -/

/-- C4: loading a 1-byte ROM rebuilds the memory with 4097 bytes - the
tail padding is computed as `4096 - length - 511` where restoring the
fixed size would need `- 512`.  This contradicts the fixed 4096-byte
memory model (the power-on memory does have 4096 bytes). -/
theorem c4_loader_memory_length :
    (load_rom_from_file [0xAB] chip8Default).map
       (fun m => m.core.memory.length) = some 4097 ∧
    chip8Default.core.memory.length = 4096 := by
  have hfont : font.length = 80 := rfl
  constructor
  · unfold load_rom_from_file
    rw [if_pos (by norm_num)]
    simp only [Option.map_some']
    simp only [List.length_append, List.length_replicate, hfont]
    norm_num
  · simp only [chip8Default]
    simp only [List.length_replicate]

/-! ## C5: the FX85 arm is dead code -/

/-- C5: with SUPER-CHIP opcodes enabled, executing FX85 (here X = 0,
`RPL[0] = 7`) does not restore V0 from the RPL store: the source guards
its FX85 arm with `opcode & 0xF0FF == 0xF075` - a copy of the FX75
guard - so the arm is unreachable and the opcode falls through to
`UnknownOpcode(0xF085)`, with the registers untouched. -/
theorem c5_fx85_unreachable :
    emulate_cycle 0 fx85State =
      .err (.UnknownOpcode 0xF085)
        ⟨{ baseCore with memory := [0xF0, 0x85],
                         rpl := (List.replicate 8 0).set 0 7,
                         opcode := 0xF085,
                         program_counter := 2 },
         { baseQuirks with superchip_opcodes := true }⟩ := by
  decide

/-! ## C7: unknown opcodes -/

/-- Counterexample for C7: opcode 0x0001 with SUPER-CHIP disabled does
fail with `UnknownOpcode(0x0001)`, but the post-state differs from the
pre-state not only in the program counter: the opcode latch (exposed to
the host through `get_opcode`) now holds 0x0001 where it held 0x0000. -/
theorem c7_counterexample :
    emulate_cycle 0 unknownOpcodeState =
      .err (.UnknownOpcode 0x0001)
        ⟨{ baseCore with memory := [0x00, 0x01], opcode := 0x0001,
                         program_counter := 2 }, baseQuirks⟩ ∧
    (⟨{ baseCore with memory := [0x00, 0x01], opcode := 0x0001,
                        program_counter := 2 }, baseQuirks⟩ : Chip8Emu).core.opcode ≠
      unknownOpcodeState.core.opcode := by
  exact ⟨by decide, by decide⟩

/-- C7 amended: a fetched opcode with no handler in the enabled
instruction set(s) fails with `UnknownOpcode` carrying that opcode, and
leaves all machine state unchanged except the program counter (advanced
by 2, wrapping u16) and the opcode latch, which now holds the fetched
opcode. -/
theorem c7_amended_unknown_opcode (rand : Nat) (s : Chip8Emu) (hi lo : Nat)
    (hlo : lo < 256)
    (h1 : s.core.memory.get? s.core.program_counter = some hi)
    (h2 : s.core.memory.get? ((s.core.program_counter + 1) % 65536) = some lo)
    (hn : ¬ isHandledBase (hi * 256 + lo))
    (hs : s.quirks.superchip_opcodes = true → ¬ isHandledSuper (hi * 256 + lo)) :
    emulate_cycle rand s =
      .err (.UnknownOpcode (hi * 256 + lo))
        ⟨{ s.core with opcode := hi * 256 + lo,
                       program_counter := (s.core.program_counter + 2) % 65536 },
         s.quirks⟩ := by
  have hf := emulateCycleCore_fetch s.quirks.superchip_opcodes rand s.core hi lo h1 h2
  rw [fetch_byte_or hi lo hlo] at hf
  unfold emulate_cycle
  rw [hf]
  simp only [isHandledBase, not_or] at hn
  obtain ⟨n1, n2, n3, n4, n5, n6, n7, n8, n9, n10, n11, n12, n13, n14, n15,
          n16, n17, n18, n19, n20, n21, n22, n23, n24, n25, n26⟩ := hn
  unfold execOpcode
  dsimp only
  rw [if_neg n1, if_neg n2, if_neg n3, if_neg n4, if_neg n5, if_neg n6, if_neg n7,
      if_neg n8, if_neg n9]
  by_cases h8 : 0x8000 ≤ hi * 256 + lo ∧ hi * 256 + lo ≤ 0x8FFF
  · rw [if_pos h8]
    have hd : ¬(opNfield (hi * 256 + lo) = 0 ∨ opNfield (hi * 256 + lo) = 1 ∨
        opNfield (hi * 256 + lo) = 2 ∨ opNfield (hi * 256 + lo) = 3 ∨
        opNfield (hi * 256 + lo) = 4 ∨ opNfield (hi * 256 + lo) = 5 ∨
        opNfield (hi * 256 + lo) = 6 ∨ opNfield (hi * 256 + lo) = 7 ∨
        opNfield (hi * 256 + lo) = 0xE) := fun h => n10 ⟨h8.1, h8.2, h⟩
    simp only [not_or] at hd
    obtain ⟨m0, m1, m2, m3, m4, m5, m6, m7, m8⟩ := hd
    unfold exec8
    rw [if_neg m0, if_neg m1, if_neg m2, if_neg m3, if_neg m4, if_neg m5, if_neg m6,
        if_neg m7, if_neg m8]
    dsimp only
    simp only [CycleResult.map]
  · rw [if_neg h8, if_neg n11, if_neg n12, if_neg n13, if_neg n14, if_neg n15,
        if_neg n16, if_neg n17, if_neg n18, if_neg n19, if_neg n20, if_neg n21,
        if_neg n22, if_neg n23, if_neg n24, if_neg n25, if_neg n26]
    cases hb : s.quirks.superchip_opcodes with
    | false =>
      rw [if_neg Bool.false_ne_true]
      simp only [CycleResult.map]
    | true =>
      rw [if_pos rfl]
      have hsn := hs hb
      simp only [isHandledSuper, not_or] at hsn
      obtain ⟨p1, p2, p3, p4, p5, p6⟩ := hsn
      unfold handle_superchip_opcode
      rw [if_neg p1, if_neg p2, if_neg p3, if_neg p4, if_neg p5, if_neg p6, if_neg p6]
      simp only [CycleResult.map]

/-- Witness for the amended C7: opcode 0x0002 with SUPER-CHIP disabled
fails with `UnknownOpcode(0x0002)` and only the program counter and the
opcode latch change. -/
theorem c7_amended_unknown_opcode_witness :
    emulate_cycle 0 ⟨{ baseCore with memory := [0x00, 0x02] }, baseQuirks⟩ =
      .err (.UnknownOpcode 2)
        ⟨{ baseCore with memory := [0x00, 0x02], opcode := 2,
                         program_counter := 2 }, baseQuirks⟩ :=
  c7_amended_unknown_opcode 0 ⟨{ baseCore with memory := [0x00, 0x02] }, baseQuirks⟩
    0 2 (by norm_num) (by decide) (by decide)
    (by unfold isHandledBase opNfield; decide)
    (fun h => absurd h Bool.false_ne_true)

/-! ## C6: FX29 and the font table -/

/-- Counterexample for C6: with `V0 = 0x10` (low nibble 0) the claim
predicts success with the index register set to `0x50`; the code's
`match self.registers[x]` has arms only for values 0x0..0xF, so it
fails with `InvalidValueInRegister(0, 0x10)` and the index register is
left unchanged. -/
theorem c6_counterexample :
    emulate_cycle 0 fontOutOfRangeState =
      .err (.InvalidValueInRegister 0 16)
        ⟨{ baseCore with memory := [0xF0, 0x29],
                         registers := (List.replicate 16 0).set 0 16,
                         opcode := 0xF029, program_counter := 2 }, baseQuirks⟩ ∧
    (emulate_cycle 0 fontOutOfRangeState).isOk = false := by
  exact ⟨by decide, by decide⟩

/-- C6 amended: FX29 succeeds only for register values 0x0..0xF, and
then sets the index register to `0x50 + 5 * v`; for any value at or
above 0x10 it fails with `InvalidValueInRegister(X, v)` and leaves the
index register unchanged. -/
theorem c6_fx29_font_index (rand : Nat) (s : Chip8Emu) (X v : Nat)
    (hX : X < 16)
    (h1 : s.core.memory.get? s.core.program_counter = some (0xF0 + X))
    (h2 : s.core.memory.get? ((s.core.program_counter + 1) % 65536) = some 0x29)
    (h3 : s.core.registers.get? X = some v) :
    (v < 16 →
      emulate_cycle rand s =
        .ok ⟨{ s.core with opcode := (0xF0 + X) * 256 + 0x29,
                           program_counter := (s.core.program_counter + 2) % 65536,
                           index_register := 0x50 + 5 * v }, s.quirks⟩) ∧
    (16 ≤ v →
      emulate_cycle rand s =
        .err (.InvalidValueInRegister X v)
          ⟨{ s.core with opcode := (0xF0 + X) * 256 + 0x29,
                         program_counter := (s.core.program_counter + 2) % 65536 },
           s.quirks⟩) := by
  have hf := emulateCycleCore_fetch s.quirks.superchip_opcodes rand s.core
    (0xF0 + X) 0x29 h1 h2
  rw [fetch_byte_or (0xF0 + X) 0x29 (by norm_num)] at hf
  have hmask : ((0xF0 + X) * 256 + 0x29) &&& 0xF0FF = 0xF029 := by
    rw [and_f0ff]; omega
  have hx : opXfield ((0xF0 + X) * 256 + 0x29) = X := by
    rw [opXfield_eq]; omega
  unfold emulate_cycle
  rw [hf]
  unfold execOpcode
  dsimp only
  rw [if_neg (by omega : ¬((0xF0 + X) * 256 + 0x29 = 0x00E0)),
      if_neg (by omega : ¬((0xF0 + X) * 256 + 0x29 = 0x00EE)),
      if_neg (by omega : ¬(0x1000 ≤ (0xF0 + X) * 256 + 0x29 ∧ (0xF0 + X) * 256 + 0x29 ≤ 0x1FFF)),
      if_neg (by omega : ¬(0x2000 ≤ (0xF0 + X) * 256 + 0x29 ∧ (0xF0 + X) * 256 + 0x29 ≤ 0x2FFF)),
      if_neg (by omega : ¬(0x3000 ≤ (0xF0 + X) * 256 + 0x29 ∧ (0xF0 + X) * 256 + 0x29 ≤ 0x3FFF)),
      if_neg (by omega : ¬(0x4000 ≤ (0xF0 + X) * 256 + 0x29 ∧ (0xF0 + X) * 256 + 0x29 ≤ 0x4FFF)),
      if_neg (by omega : ¬(0x5000 ≤ (0xF0 + X) * 256 + 0x29 ∧ (0xF0 + X) * 256 + 0x29 ≤ 0x5FF0)),
      if_neg (by omega : ¬(0x6000 ≤ (0xF0 + X) * 256 + 0x29 ∧ (0xF0 + X) * 256 + 0x29 ≤ 0x6FFF)),
      if_neg (by omega : ¬(0x7000 ≤ (0xF0 + X) * 256 + 0x29 ∧ (0xF0 + X) * 256 + 0x29 ≤ 0x7FFF)),
      if_neg (by omega : ¬(0x8000 ≤ (0xF0 + X) * 256 + 0x29 ∧ (0xF0 + X) * 256 + 0x29 ≤ 0x8FFF)),
      if_neg (by omega : ¬(0x9000 ≤ (0xF0 + X) * 256 + 0x29 ∧ (0xF0 + X) * 256 + 0x29 ≤ 0x9FF0)),
      if_neg (by omega : ¬(0xA000 ≤ (0xF0 + X) * 256 + 0x29 ∧ (0xF0 + X) * 256 + 0x29 ≤ 0xAFFF)),
      if_neg (by omega : ¬(0xB000 ≤ (0xF0 + X) * 256 + 0x29 ∧ (0xF0 + X) * 256 + 0x29 ≤ 0xBFFF)),
      if_neg (by omega : ¬(0xC000 ≤ (0xF0 + X) * 256 + 0x29 ∧ (0xF0 + X) * 256 + 0x29 ≤ 0xCFFF)),
      if_neg (by omega : ¬(0xD000 ≤ (0xF0 + X) * 256 + 0x29 ∧ (0xF0 + X) * 256 + 0x29 ≤ 0xDFFF)),
      if_neg (by rw [hmask]; decide : ¬(((0xF0 + X) * 256 + 0x29) &&& 0xF0FF = 0xE09E)),
      if_neg (by rw [hmask]; decide : ¬(((0xF0 + X) * 256 + 0x29) &&& 0xF0FF = 0xE0A1)),
      if_neg (by rw [hmask]; decide : ¬(((0xF0 + X) * 256 + 0x29) &&& 0xF0FF = 0xF007)),
      if_neg (by rw [hmask]; decide : ¬(((0xF0 + X) * 256 + 0x29) &&& 0xF0FF = 0xF015)),
      if_neg (by rw [hmask]; decide : ¬(((0xF0 + X) * 256 + 0x29) &&& 0xF0FF = 0xF018)),
      if_neg (by rw [hmask]; decide : ¬(((0xF0 + X) * 256 + 0x29) &&& 0xF0FF = 0xF01E)),
      if_neg (by rw [hmask]; decide : ¬(((0xF0 + X) * 256 + 0x29) &&& 0xF0FF = 0xF00A)),
      if_pos hmask, hx, h3]
  dsimp only
  constructor
  · intro hv
    have hfp : font_position v = some (0x50 + 5 * v) := by
      unfold font_position
      interval_cases v <;> rfl
    rw [hfp]
    simp only [CycleResult.map]
  · intro hv
    have hfp : font_position v = none := by
      unfold font_position
      rw [if_neg (by omega : ¬(v = 0x0)), if_neg (by omega : ¬(v = 0x1)),
          if_neg (by omega : ¬(v = 0x2)), if_neg (by omega : ¬(v = 0x3)),
          if_neg (by omega : ¬(v = 0x4)), if_neg (by omega : ¬(v = 0x5)),
          if_neg (by omega : ¬(v = 0x6)), if_neg (by omega : ¬(v = 0x7)),
          if_neg (by omega : ¬(v = 0x8)), if_neg (by omega : ¬(v = 0x9)),
          if_neg (by omega : ¬(v = 0xA)), if_neg (by omega : ¬(v = 0xB)),
          if_neg (by omega : ¬(v = 0xC)), if_neg (by omega : ¬(v = 0xD)),
          if_neg (by omega : ¬(v = 0xE)), if_neg (by omega : ¬(v = 0xF))]
    rw [hfp]
    simp only [CycleResult.map]

/-- Witness for the amended C6: FX29 with X = 1, V1 = 7 puts the glyph
offset 0x73 = 0x50 + 5 * 7 into the index register. -/
theorem c6_fx29_font_index_witness :
    emulate_cycle 0
      ⟨{ baseCore with memory := [0xF1, 0x29],
                       registers := (List.replicate 16 0).set 1 7 }, baseQuirks⟩ =
      .ok ⟨{ baseCore with memory := [0xF1, 0x29],
                           registers := (List.replicate 16 0).set 1 7,
                           opcode := 0xF129, program_counter := 2,
                           index_register := 0x73 }, baseQuirks⟩ :=
  (c6_fx29_font_index 0
    ⟨{ baseCore with memory := [0xF1, 0x29],
                     registers := (List.replicate 16 0).set 1 7 }, baseQuirks⟩
    1 7 (by norm_num) (by decide) (by decide) (by decide)).1 (by norm_num)

/-! ## C9: add and subtract with carry / borrow flags -/

/-- Counterexample for C9: the claim quantifies over all register
indices X, but for X = 0xF the flag write lands on VX itself: `8F14`
with VF = V1 = 1 leaves VF = 0 (the carry flag), not the claimed sum
(1 + 1) % 256 = 2. -/
theorem c9_counterexample :
    emulate_cycle 0 addIntoVFState =
      .ok ⟨{ baseCore with memory := [0x8F, 0x14],
                           registers := [0, 1, 0, 0, 0, 0, 0, 0, 0, 0, 0, 0, 0, 0, 0, 0],
                           opcode := 0x8F14, program_counter := 2 }, baseQuirks⟩ ∧
    (0 : Nat) ≠ (1 + 1) % 256 := ⟨by decide, by decide⟩

/-- C9 amended: for register indices X other than 0xF, `8XY4` sets VX
to (VX + VY) mod 256 and VF to 1 exactly when the addition overflowed,
and `8XY5` sets VX to (VX - VY) mod 256 (wrapping) and VF to 1 exactly
when no borrow occurred (VX at least VY); when X = 0xF the subsequent
flag write overwrites the arithmetic result. -/
theorem c9_8xy4_8xy5 (rand : Nat) (s : Chip8Emu) (X Y d vx vy : Nat)
    (hX : X < 16) (hY : Y < 16) (hd : d < 16) (hXne : X ≠ 15)
    (hlen : s.core.registers.length = 16)
    (h1 : s.core.memory.get? s.core.program_counter = some (0x80 + X))
    (h2 : s.core.memory.get? ((s.core.program_counter + 1) % 65536) = some (Y * 16 + d))
    (h3 : s.core.registers.get? X = some vx)
    (h4 : s.core.registers.get? Y = some vy) :
    (d = 4 → ∃ t, emulate_cycle rand s = .ok t ∧
       t.core.registers.get? X = some ((vx + vy) % 256) ∧
       t.core.registers.get? 15 = some (if 256 ≤ vx + vy then 1 else 0)) ∧
    (d = 5 → ∃ t, emulate_cycle rand s = .ok t ∧
       t.core.registers.get? X = some ((vx + 256 - vy) % 256) ∧
       t.core.registers.get? 15 = some (if vx < vy then 0 else 1)) := by
  have hf := emulateCycleCore_fetch s.quirks.superchip_opcodes rand s.core
    (0x80 + X) (Y * 16 + d) h1 h2
  rw [fetch_byte_or (0x80 + X) (Y * 16 + d) (by omega)] at hf
  have hx : opXfield ((0x80 + X) * 256 + (Y * 16 + d)) = X := by
    rw [opXfield_eq]; omega
  have hyf : opYfield ((0x80 + X) * 256 + (Y * 16 + d)) = Y := by
    rw [opYfield_eq]; omega
  have hn : opNfield ((0x80 + X) * 256 + (Y * 16 + d)) = d := by
    rw [opNfield_eq]; omega
  unfold emulate_cycle
  rw [hf]
  unfold execOpcode
  dsimp only
  rw [if_neg (by omega : ¬((0x80 + X) * 256 + (Y * 16 + d) = 0x00E0)),
      if_neg (by omega : ¬((0x80 + X) * 256 + (Y * 16 + d) = 0x00EE)),
      if_neg (by omega : ¬(0x1000 ≤ (0x80 + X) * 256 + (Y * 16 + d) ∧ (0x80 + X) * 256 + (Y * 16 + d) ≤ 0x1FFF)),
      if_neg (by omega : ¬(0x2000 ≤ (0x80 + X) * 256 + (Y * 16 + d) ∧ (0x80 + X) * 256 + (Y * 16 + d) ≤ 0x2FFF)),
      if_neg (by omega : ¬(0x3000 ≤ (0x80 + X) * 256 + (Y * 16 + d) ∧ (0x80 + X) * 256 + (Y * 16 + d) ≤ 0x3FFF)),
      if_neg (by omega : ¬(0x4000 ≤ (0x80 + X) * 256 + (Y * 16 + d) ∧ (0x80 + X) * 256 + (Y * 16 + d) ≤ 0x4FFF)),
      if_neg (by omega : ¬(0x5000 ≤ (0x80 + X) * 256 + (Y * 16 + d) ∧ (0x80 + X) * 256 + (Y * 16 + d) ≤ 0x5FF0)),
      if_neg (by omega : ¬(0x6000 ≤ (0x80 + X) * 256 + (Y * 16 + d) ∧ (0x80 + X) * 256 + (Y * 16 + d) ≤ 0x6FFF)),
      if_neg (by omega : ¬(0x7000 ≤ (0x80 + X) * 256 + (Y * 16 + d) ∧ (0x80 + X) * 256 + (Y * 16 + d) ≤ 0x7FFF)),
      if_pos (by omega : 0x8000 ≤ (0x80 + X) * 256 + (Y * 16 + d) ∧ (0x80 + X) * 256 + (Y * 16 + d) ≤ 0x8FFF),
      hx, hyf, hn]
  constructor
  · intro hd4
    subst hd4
    unfold exec8
    rw [if_neg (by decide : ¬((4:Nat) = 0)), if_neg (by decide : ¬((4:Nat) = 1)),
        if_neg (by decide : ¬((4:Nat) = 2)), if_neg (by decide : ¬((4:Nat) = 3)),
        if_pos rfl]
    dsimp only
    rw [h3, h4]
    dsimp only
    unfold vecSet
    rw [if_pos (by rw [hlen]; omega : X < s.core.registers.length)]
    dsimp only
    rw [if_pos (by rw [List.length_set, hlen]; omega :
          15 < (s.core.registers.set X ((vx + vy) % 256)).length)]
    dsimp only
    simp only [CycleResult.map]
    refine ⟨_, rfl, ?_, ?_⟩
    · rw [List.get?_set_ne _ _ (by omega : (15:Nat) ≠ X),
          List.get?_set_eq_of_lt _ (by rw [hlen]; omega)]
    · rw [List.get?_set_eq_of_lt _ (by rw [List.length_set, hlen]; omega)]
  · intro hd5
    subst hd5
    unfold exec8
    rw [if_neg (by decide : ¬((5:Nat) = 0)), if_neg (by decide : ¬((5:Nat) = 1)),
        if_neg (by decide : ¬((5:Nat) = 2)), if_neg (by decide : ¬((5:Nat) = 3)),
        if_neg (by decide : ¬((5:Nat) = 4)), if_pos rfl]
    dsimp only
    rw [h3, h4]
    dsimp only
    unfold vecSet
    rw [if_pos (by rw [hlen]; omega : X < s.core.registers.length)]
    dsimp only
    rw [if_pos (by rw [List.length_set, hlen]; omega :
          15 < (s.core.registers.set X ((vx + 256 - vy) % 256)).length)]
    dsimp only
    simp only [CycleResult.map]
    refine ⟨_, rfl, ?_, ?_⟩
    · rw [List.get?_set_ne _ _ (by omega : (15:Nat) ≠ X),
          List.get?_set_eq_of_lt _ (by rw [hlen]; omega)]
    · rw [List.get?_set_eq_of_lt _ (by rw [List.length_set, hlen]; omega)]

/-- Witness for the amended C9: `8124` with V1 = 0xFF, V2 = 0x01 gives
V1 = 0x00 and VF = 1 (the overflow case of the spec test vector). -/
theorem c9_8xy4_8xy5_witness :
    ((emulate_cycle 0
        ⟨{ baseCore with memory := [0x81, 0x24],
                         registers := ((List.replicate 16 0).set 1 255).set 2 1 },
         baseQuirks⟩).stateOf.map
      (fun t => (t.core.registers.get? 1, t.core.registers.get? 15))) =
      some (some 0, some 1) := by
  obtain ⟨t, ht, hx, hf⟩ :=
    (c9_8xy4_8xy5 0
      ⟨{ baseCore with memory := [0x81, 0x24],
                       registers := ((List.replicate 16 0).set 1 255).set 2 1 },
       baseQuirks⟩
      1 2 4 255 1 (by norm_num) (by norm_num) (by norm_num) (by norm_num)
      (by decide) (by decide) (by decide) (by decide) (by decide)).1 rfl
  rw [ht]
  simp only [CycleResult.stateOf, Option.map_some']
  rw [hx, hf]
  rfl

/-! ## C10: only the superchip_opcodes flag can change behaviour -/

/-- C10: two runs of the same cycle on states that differ only in the
`superchip_shift`, `superchip_offset_jump` and `superchip_memory`
flags produce the same outcome - same ok/err/crash shape, same error,
same machine state - with each run keeping its own (never written)
quirk configuration.  Only `superchip_opcodes` reaches the execution
path, so in particular 8XY6/8XYE always read VY, BNNN always jumps to
NNN + V0, and FX55/FX65 ignore the memory quirk. -/
theorem c10_quirk_flags_inert (rand : Nat) (s : Chip8Emu) (q' : Quirks)
    (h : q'.superchip_opcodes = s.quirks.superchip_opcodes) :
    emulate_cycle rand { s with quirks := q' } =
      (emulate_cycle rand s).map (fun t => { t with quirks := q' }) := by
  unfold emulate_cycle
  dsimp only
  rw [h]
  cases emulateCycleCore s.quirks.superchip_opcodes rand s.core <;> rfl

/-- Witness for C10: raising the three inert flags on the power-on
machine gives the same cycle outcome with only the configuration
swapped. -/
theorem c10_quirk_flags_inert_witness :
    emulate_cycle 0 { chip8Default with quirks := flippedQuirks } =
      (emulate_cycle 0 chip8Default).map (fun t => { t with quirks := flippedQuirks }) :=
  c10_quirk_flags_inert 0 chip8Default flippedQuirks rfl

/-! ## C8: loader round-trip -/

theorem get?_replicate_lt {n j : Nat} (a : Nat) (h : j < n) :
    (List.replicate n a).get? j = some a := by
  simp [List.get?_eq_getElem?, List.getElem?_replicate, h]

theorem load_rom_ok (bytes : List Nat) (s m : Chip8Emu)
    (hm : load_rom_from_file bytes s = some m) :
    bytes.length ≤ 3585 ∧
    m.core.memory =
      List.replicate 80 0 ++ font ++ List.replicate (512 - 160) 0 ++ bytes ++
      List.replicate (4096 - bytes.length - 511) 0 := by
  unfold load_rom_from_file at hm
  by_cases hl : bytes.length + 511 ≤ 4096
  · rw [if_pos hl] at hm
    injection hm with h
    subst h
    exact ⟨by omega, rfl⟩
  · rw [if_neg hl] at hm
    exact Option.noConfusion hm

theorem load_rom_memory_len (bytes : List Nat) (s m : Chip8Emu)
    (hm : load_rom_from_file bytes s = some m) :
    m.core.memory.length = 4097 := by
  obtain ⟨hl, hmem⟩ := load_rom_ok bytes s m hm
  have hfont : font.length = 80 := rfl
  rw [hmem]
  simp only [List.length_append, List.length_replicate, hfont]
  omega

theorem load_rom_memory_get (bytes : List Nat) (s m : Chip8Emu)
    (hm : load_rom_from_file bytes s = some m) (j : Nat) :
    m.core.memory.get? j =
      if j < 80 then some 0
      else if j < 160 then font.get? (j - 80)
      else if j < 512 then some 0
      else if j < 512 + bytes.length then bytes.get? (j - 512)
      else if j < 4097 then some 0
      else none := by
  obtain ⟨hl, hmem⟩ := load_rom_ok bytes s m hm
  have hfont : font.length = 80 := rfl
  have hA : (List.replicate 80 (0:Nat)).length = 80 := by simp
  have hB : (List.replicate (512 - 160) (0:Nat)).length = 352 := by simp
  have hC : (List.replicate (4096 - bytes.length - 511) (0:Nat)).length =
      3585 - bytes.length := by simp; omega
  have hmem' : m.core.memory =
      List.replicate 80 0 ++ (font ++ (List.replicate (512 - 160) 0 ++ (bytes ++
        List.replicate (4096 - bytes.length - 511) 0))) := by
    rw [hmem]
    simp [List.append_assoc]
  rw [hmem']
  by_cases j1 : j < 80
  · rw [if_pos j1, List.get?_append (by rw [hA]; omega)]
    exact get?_replicate_lt 0 j1
  · rw [if_neg j1, List.get?_append_right (by rw [hA]; omega), hA]
    by_cases j2 : j < 160
    · rw [if_pos j2, List.get?_append (by rw [hfont]; omega)]
    · rw [if_neg j2, List.get?_append_right (by rw [hfont]; omega), hfont]
      by_cases j3 : j < 512
      · rw [if_pos j3, List.get?_append (by rw [hB]; omega)]
        exact get?_replicate_lt 0 (by omega)
      · rw [if_neg j3, List.get?_append_right (by rw [hB]; omega), hB]
        by_cases j4 : j < 512 + bytes.length
        · rw [if_pos j4, List.get?_append (by omega)]
          congr 1
        · rw [if_neg j4, List.get?_append_right (by omega)]
          by_cases j5 : j < 4097
          · rw [if_pos j5]
            exact get?_replicate_lt 0 (by omega)
          · rw [if_neg j5]
            rw [List.get?_eq_none.mpr (by rw [hC]; omega)]

/-- C8: after a successful load of an N-byte ROM, the N memory bytes at
offset 0x200 reproduce the ROM exactly, and every memory byte outside
the 80-byte font region (0x50..0x9F) and the loaded region is zero. -/
theorem c8_loader_round_trip (bytes : List Nat) (s m : Chip8Emu)
    (hm : load_rom_from_file bytes s = some m) :
    (∀ i, i < bytes.length → m.core.memory.get? (0x200 + i) = bytes.get? i) ∧
    (∀ j, j < m.core.memory.length →
      ¬(80 ≤ j ∧ j < 160) → ¬(512 ≤ j ∧ j < 512 + bytes.length) →
      m.core.memory.getD j 0 = 0) := by
  obtain ⟨hl, _⟩ := load_rom_ok bytes s m hm
  constructor
  · intro i hi
    rw [load_rom_memory_get bytes s m hm (0x200 + i),
        if_neg (by omega), if_neg (by omega), if_neg (by omega), if_pos (by omega)]
    have hidx : 0x200 + i - 512 = i := by omega
    rw [hidx]
  · intro j hj hfont hrom
    rw [load_rom_memory_len bytes s m hm] at hj
    rw [List.getD_eq_get?, load_rom_memory_get bytes s m hm j]
    by_cases j1 : j < 80
    · rw [if_pos j1]; rfl
    · rw [if_neg j1, if_neg (by omega : ¬(j < 160))]
      by_cases j3 : j < 512
      · rw [if_pos j3]; rfl
      · rw [if_neg j3, if_neg (by omega : ¬(j < 512 + bytes.length)),
            if_pos (by omega : j < 4097)]
        rfl

/-- Witness for C8 on the one-byte ROM `[0xAB]`: the byte reappears at
0x200 and the bytes at 0x000 and 0x205 are zero. -/
theorem c8_loader_round_trip_witness :
    loadedDemo.core.memory.get? 0x200 = some 0xAB ∧
    loadedDemo.core.memory.getD 0 0 = 0 ∧
    loadedDemo.core.memory.getD 0x205 0 = 0 := by
  obtain ⟨h1, h2⟩ := c8_loader_round_trip [0xAB] chip8Default loadedDemo rfl
  have hlen := load_rom_memory_len [0xAB] chip8Default loadedDemo rfl
  refine ⟨?_, ?_, ?_⟩
  · have h := h1 0 (by norm_num)
    simpa using h
  · exact h2 0 (by omega) (by omega) (by omega)
  · exact h2 0x205 (by omega) (by omega) (by simp)

/-! ## C2: drawing the same sprite twice -/

theorem get?_eq_some_getD {l : List Nat} {i : Nat} (h : i < l.length) :
    l.get? i = some (l.getD i 0) := by
  cases hx : l.get? i with
  | none => exact absurd (List.get?_eq_none.mp hx) (by omega)
  | some a => rw [List.getD_eq_get?, hx]; rfl

theorem getD_set_self {l : List Nat} {i : Nat} (v : Nat) (h : i < l.length) :
    (l.set i v).getD i 0 = v := by
  rw [List.getD_eq_get?, List.get?_set_eq_of_lt _ h]
  rfl

theorem getD_set_ne {l : List Nat} {i j : Nat} (v : Nat) (h : i ≠ j) :
    (l.set i v).getD j 0 = l.getD j 0 := by
  rw [List.getD_eq_get?, List.get?_set_ne _ _ h, ← List.getD_eq_get?]

theorem drawRow_spec (mem : List Nat) (ir cx cy row : Nat) (g : List Nat) (vf : Nat)
    (hg : g.length = 256)
    (hmem : (ir + row) % 65536 < mem.length) :
    ∃ g2, drawRow mem ir cx cy row g vf = some
        (g2,
         if ((g.getD ((cy * 8 + cx / 8 + row * 8) % 256) 0 <<< (cx % 8)) % 256) &&&
              mem.getD ((ir + row) % 65536) 0 ≠ 0 then 1 else vf) ∧
      g2.length = 256 ∧
      (∀ i, g2.getD i 0 = g.getD i 0 ^^^ stepContrib mem ir cx cy row i) := by
  unfold drawRow
  rw [get?_eq_some_getD hmem]
  dsimp only
  rw [get?_eq_some_getD (show (cy * 8 + cx / 8 + row * 8) % 256 < g.length by
        rw [hg]; exact Nat.mod_lt _ (by norm_num))]
  dsimp only
  by_cases hc : cx % 8 ≠ 0 ∧ cx < 56
  · rw [if_pos hc]
    have hsb : (cy * 8 + cx / 8 + row * 8) % 256 + 1 < 256 := by omega
    rw [get?_eq_some_getD (show (cy * 8 + cx / 8 + row * 8) % 256 + 1 <
          (g.set ((cy * 8 + cx / 8 + row * 8) % 256)
            (g.getD ((cy * 8 + cx / 8 + row * 8) % 256) 0 ^^^
              (mem.getD ((ir + row) % 65536) 0 >>> (cx % 8)))).length by
        rw [List.length_set, hg]; omega)]
    dsimp only
    refine ⟨_, rfl, by simp [List.length_set, hg], ?_⟩
    intro i
    unfold stepContrib
    dsimp only
    by_cases Hi1 : (cy * 8 + cx / 8 + row * 8) % 256 + 1 = i
    · rw [← Hi1]
      rw [getD_set_self _ (by rw [List.length_set, hg]; omega),
          getD_set_ne _ (by omega : (cy * 8 + cx / 8 + row * 8) % 256 ≠
            (cy * 8 + cx / 8 + row * 8) % 256 + 1),
          if_neg (by omega : ¬((cy * 8 + cx / 8 + row * 8) % 256 =
            (cy * 8 + cx / 8 + row * 8) % 256 + 1)),
          if_pos ⟨rfl, hc⟩, Nat.zero_xor]
    · by_cases Hi0 : (cy * 8 + cx / 8 + row * 8) % 256 = i
      · rw [← Hi0]
        rw [getD_set_ne _ (by omega : (cy * 8 + cx / 8 + row * 8) % 256 + 1 ≠
              (cy * 8 + cx / 8 + row * 8) % 256),
            getD_set_self _ (by rw [hg]; omega),
            if_pos rfl,
            if_neg (fun h => absurd h.1
              (by omega : ¬((cy * 8 + cx / 8 + row * 8) % 256 + 1 =
                (cy * 8 + cx / 8 + row * 8) % 256))),
            Nat.xor_zero]
      · rw [getD_set_ne _ Hi1, getD_set_ne _ Hi0,
            if_neg Hi0, if_neg (fun h => Hi1 h.1)]
        simp
  · rw [if_neg hc]
    dsimp only
    refine ⟨_, rfl, by simp [List.length_set, hg], ?_⟩
    intro i
    unfold stepContrib
    dsimp only
    by_cases Hi0 : (cy * 8 + cx / 8 + row * 8) % 256 = i
    · rw [← Hi0, getD_set_self _ (by rw [hg]; omega),
          if_pos rfl, if_neg (fun h => hc h.2), Nat.xor_zero]
    · rw [getD_set_ne _ Hi0, if_neg Hi0, if_neg (fun h => hc h.2)]
      simp

theorem drawRows_run (mem : List Nat) (ir cx cy : Nat) :
    ∀ (k row : Nat) (g : List Nat) (vf : Nat),
      g.length = 256 →
      (∀ r, row ≤ r → r < row + k → (ir + r) % 65536 < mem.length) →
      ∃ g1 vf1, drawRows mem ir cx cy row k (g, vf) = some (g1, vf1) ∧
        g1.length = 256 ∧
        ∀ i, g1.getD i 0 = g.getD i 0 ^^^ contribRows mem ir cx cy i row k := by
  intro k
  induction k with
  | zero =>
    intro row g vf hg _
    exact ⟨g, vf, rfl, hg, fun i => by rw [contribRows]; simp⟩
  | succ k ih =>
    intro row g vf hg hmem
    obtain ⟨g2, hrow_eq, hg2, hchar⟩ := drawRow_spec mem ir cx cy row g vf hg
      (hmem row (le_refl _) (by omega))
    obtain ⟨g1, vf1, heq, hlen, hchar2⟩ := ih (row + 1) g2 _ hg2
      (fun r hr1 hr2 => hmem r (by omega) (by omega))
    refine ⟨g1, vf1, ?_, hlen, ?_⟩
    · rw [drawRows, hrow_eq]
      exact heq
    · intro i
      rw [hchar2 i, hchar i, contribRows, Nat.xor_assoc]

theorem drawRow_vf_in_one (mem : List Nat) (ir cx cy row : Nat) (g g2 : List Nat) (v : Nat)
    (h : drawRow mem ir cx cy row g 1 = some (g2, v)) : v = 1 := by
  unfold drawRow at h
  dsimp only at h
  repeat' split at h
  all_goals
    first
      | exact Option.noConfusion h
      | (injection h with h2
         injection h2 with ha hb
         exact hb.symm)

theorem drawRows_vf_keep (mem : List Nat) (ir cx cy : Nat) :
    ∀ (k row : Nat) (g g1 : List Nat) (vf1 : Nat),
      drawRows mem ir cx cy row k (g, 1) = some (g1, vf1) → vf1 = 1 := by
  intro k
  induction k with
  | zero =>
    intro row g g1 vf1 h
    rw [drawRows] at h
    injection h with h2
    injection h2 with ha hb
    exact hb.symm
  | succ k ih =>
    intro row g g1 vf1 h
    rw [drawRows] at h
    split at h
    · exact Option.noConfusion h
    · rename_i acc1 hd
      obtain ⟨g2, v⟩ := acc1
      have hv := drawRow_vf_in_one mem ir cx cy row g g2 v hd
      subst hv
      exact ih (row + 1) g2 g1 vf1 h

theorem drawRows_vf_one (mem : List Nat) (ir cx cy : Nat) :
    ∀ (k row : Nat) (g : List Nat) (vf : Nat) (g1 : List Nat) (vf1 : Nat),
      g.length = 256 →
      (∀ r', row ≤ r' → r' < row + k → (ir + r') % 65536 < mem.length) →
      drawRows mem ir cx cy row k (g, vf) = some (g1, vf1) →
      ∀ r, row ≤ r → r < row + k →
      (((g.getD ((cy * 8 + cx / 8 + r * 8) % 256) 0 ^^^
          contribRows mem ir cx cy ((cy * 8 + cx / 8 + r * 8) % 256) row (r - row))
         <<< (cx % 8)) % 256) &&& mem.getD ((ir + r) % 65536) 0 ≠ 0 → vf1 = 1 := by
  intro k
  induction k with
  | zero =>
    intro row g vf g1 vf1 _ _ _ r hr1 hr2
    exact absurd hr2 (by omega)
  | succ k ih =>
    intro row g vf g1 vf1 hg hmem h r hr1 hr2 hcheck
    obtain ⟨g2, hrow_eq, hg2, hchar⟩ := drawRow_spec mem ir cx cy row g vf hg
      (hmem row (le_refl _) (by omega))
    rw [drawRows, hrow_eq] at h
    by_cases hr : r = row
    · subst hr
      rw [Nat.sub_self, contribRows, Nat.xor_zero] at hcheck
      rw [if_pos hcheck] at h
      exact drawRows_vf_keep mem ir cx cy k (r + 1) g2 g1 vf1 h
    · have hr' : row + 1 ≤ r := by omega
      refine ih (row + 1) g2 _ g1 vf1 hg2
        (fun r' a b => hmem r' (by omega) (by omega)) h r hr' (by omega) ?_
      rw [hchar]
      have hsplit : contribRows mem ir cx cy ((cy * 8 + cx / 8 + r * 8) % 256) row (r - row) =
          stepContrib mem ir cx cy row ((cy * 8 + cx / 8 + r * 8) % 256) ^^^
          contribRows mem ir cx cy ((cy * 8 + cx / 8 + r * 8) % 256) (row + 1) (r - (row + 1)) := by
        have hstep : r - row = (r - (row + 1)) + 1 := by omega
        rw [hstep, contribRows]
      rw [hsplit, ← Nat.xor_assoc] at hcheck
      exact hcheck

theorem contribRows_split (mem : List Nat) (ir cx cy i : Nat) :
    ∀ (k1 k2 row : Nat),
      contribRows mem ir cx cy i row (k1 + k2) =
        contribRows mem ir cx cy i row k1 ^^^
        contribRows mem ir cx cy i (row + k1) k2 := by
  intro k1
  induction k1 with
  | zero =>
    intro k2 row
    rw [Nat.zero_add]
    conv_rhs => rw [contribRows]
    rw [Nat.zero_xor, Nat.add_zero]
  | succ k1 ih =>
    intro k2 row
    have h1 : k1 + 1 + k2 = (k1 + k2) + 1 := by omega
    rw [h1, contribRows, ih k2 (row + 1)]
    conv_rhs => rw [contribRows]
    rw [Nat.xor_assoc]
    have h2 : row + 1 + k1 = row + (k1 + 1) := by omega
    rw [h2]

theorem contribRows_zero_away (mem : List Nat) (ir cx cy : Nat) (r : Nat)
    (hcx : cx < 64) (hr : r < 16) :
    ∀ (k row : Nat), row + k ≤ 16 → (r < row ∨ row + k ≤ r) →
      contribRows mem ir cx cy ((cy * 8 + cx / 8 + r * 8) % 256) row k = 0 := by
  intro k
  induction k with
  | zero => intro row _ _; rw [contribRows]
  | succ k ih =>
    intro row hbound hout
    rw [contribRows, ih (row + 1) (by omega) (by omega), Nat.xor_zero]
    unfold stepContrib
    dsimp only
    rw [if_neg (by omega :
          ¬((cy * 8 + cx / 8 + row * 8) % 256 = (cy * 8 + cx / 8 + r * 8) % 256)),
        if_neg (by omega :
          ¬((cy * 8 + cx / 8 + row * 8) % 256 + 1 = (cy * 8 + cx / 8 + r * 8) % 256 ∧
            cx % 8 ≠ 0 ∧ cx < 56))]
    rfl

theorem spill_check_ne_zero (d s' : Nat) (hd : d < 256) (hne : d >>> s' ≠ 0) :
    (((d >>> s') <<< s') % 256) &&& d ≠ 0 := by
  have hle : (d >>> s') <<< s' ≤ d := by
    rw [Nat.shiftLeft_eq, Nat.shiftRight_eq_div_pow]
    exact Nat.div_mul_le_self d (2 ^ s')
  have hmod : ((d >>> s') <<< s') % 256 = (d >>> s') <<< s' :=
    Nat.mod_eq_of_lt (by omega)
  rw [hmod]
  have hsub : ((d >>> s') <<< s') &&& d = (d >>> s') <<< s' := by
    apply Nat.eq_of_testBit_eq
    intro j
    simp only [Nat.testBit_and, Nat.testBit_shiftLeft, Nat.testBit_shiftRight]
    by_cases hj : s' ≤ j
    · have hsj : s' + (j - s') = j := by omega
      simp only [ge_iff_le, hj, decide_True, Bool.true_and, hsj, Bool.and_self]
    · simp only [ge_iff_le, hj, decide_False, Bool.false_and]
  rw [hsub, Nat.shiftLeft_eq]
  intro h0
  rcases Nat.mul_eq_zero.mp h0 with h | h
  · exact hne h
  · exact absurd h (Nat.pos_iff_ne_zero.mp (Nat.two_pow_pos s'))

theorem vecSet_ok (l : List Nat) (i v : Nat) (h : i < l.length) :
    vecSet l i v = some (l.set i v) := by
  unfold vecSet
  rw [if_pos h]

theorem execOpcode_dxyn (b : Bool) (rand : Nat) (s : Chip8Core)
    (hop1 : 0xD000 ≤ s.opcode) (hop2 : s.opcode ≤ 0xDFFF) :
    execOpcode b rand s =
      (match s.registers.get? (opXfield s.opcode), s.registers.get? (opYfield s.opcode) with
       | some vx, some vy =>
         (match vecSet s.registers 15 0 with
          | none => .crash
          | some r1 =>
            match drawRows s.memory s.index_register (vx &&& 0x3F) (vy &&& 0x1F) 0
                (opNfield s.opcode) (s.gfx, 0) with
            | none => .crash
            | some (g, vf) =>
              match vecSet r1 15 vf with
              | none => .crash
              | some r2 =>
                if g.length % 8 = 0 then .ok { s with registers := r2, gfx := g }
                else .crash)
       | _, _ => .crash) := by
  unfold execOpcode
  rw [if_neg (by omega : ¬(s.opcode = 0x00E0)),
      if_neg (by omega : ¬(s.opcode = 0x00EE)),
      if_neg (by omega : ¬(0x1000 ≤ s.opcode ∧ s.opcode ≤ 0x1FFF)),
      if_neg (by omega : ¬(0x2000 ≤ s.opcode ∧ s.opcode ≤ 0x2FFF)),
      if_neg (by omega : ¬(0x3000 ≤ s.opcode ∧ s.opcode ≤ 0x3FFF)),
      if_neg (by omega : ¬(0x4000 ≤ s.opcode ∧ s.opcode ≤ 0x4FFF)),
      if_neg (by omega : ¬(0x5000 ≤ s.opcode ∧ s.opcode ≤ 0x5FF0)),
      if_neg (by omega : ¬(0x6000 ≤ s.opcode ∧ s.opcode ≤ 0x6FFF)),
      if_neg (by omega : ¬(0x7000 ≤ s.opcode ∧ s.opcode ≤ 0x7FFF)),
      if_neg (by omega : ¬(0x8000 ≤ s.opcode ∧ s.opcode ≤ 0x8FFF)),
      if_neg (by omega : ¬(0x9000 ≤ s.opcode ∧ s.opcode ≤ 0x9FF0)),
      if_neg (by omega : ¬(0xA000 ≤ s.opcode ∧ s.opcode ≤ 0xAFFF)),
      if_neg (by omega : ¬(0xB000 ≤ s.opcode ∧ s.opcode ≤ 0xBFFF)),
      if_neg (by omega : ¬(0xC000 ≤ s.opcode ∧ s.opcode ≤ 0xCFFF)),
      if_pos (⟨hop1, hop2⟩ : 0xD000 ≤ s.opcode ∧ s.opcode ≤ 0xDFFF)]

theorem cycle_draw (rand : Nat) (s : Chip8Emu) (X Y Nn vx vy : Nat)
    (g1 : List Nat) (vf1 : Nat)
    (hX : X < 16) (hY : Y < 16) (hN : Nn < 16)
    (hrl : s.core.registers.length = 16)
    (h1 : s.core.memory.get? s.core.program_counter = some (0xD0 + X))
    (h2 : s.core.memory.get? ((s.core.program_counter + 1) % 65536) = some (Y * 16 + Nn))
    (hrx : s.core.registers.get? X = some vx)
    (hry : s.core.registers.get? Y = some vy)
    (hdraw : drawRows s.core.memory s.core.index_register (vx &&& 0x3F) (vy &&& 0x1F)
        0 Nn (s.core.gfx, 0) = some (g1, vf1))
    (hg1len : g1.length = 256) :
    emulate_cycle rand s = .ok
      ⟨{ s.core with opcode := (0xD0 + X) * 256 + (Y * 16 + Nn),
                     program_counter := (s.core.program_counter + 2) % 65536,
                     registers := (s.core.registers.set 15 0).set 15 vf1,
                     gfx := g1 }, s.quirks⟩ := by
  have hf := emulateCycleCore_fetch s.quirks.superchip_opcodes rand s.core
    (0xD0 + X) (Y * 16 + Nn) h1 h2
  rw [fetch_byte_or (0xD0 + X) (Y * 16 + Nn) (by omega)] at hf
  have hx : opXfield ((0xD0 + X) * 256 + (Y * 16 + Nn)) = X := by
    rw [opXfield_eq]; omega
  have hyf : opYfield ((0xD0 + X) * 256 + (Y * 16 + Nn)) = Y := by
    rw [opYfield_eq]; omega
  have hn : opNfield ((0xD0 + X) * 256 + (Y * 16 + Nn)) = Nn := by
    rw [opNfield_eq]; omega
  unfold emulate_cycle
  rw [hf, execOpcode_dxyn _ _ _ (by dsimp only; omega) (by dsimp only; omega)]
  dsimp only
  rw [hx, hyf, hn, hrx, hry]
  dsimp only
  rw [vecSet_ok _ _ _ (by rw [hrl]; omega), hdraw]
  dsimp only
  rw [vecSet_ok _ _ _ (by rw [List.length_set, hrl]; omega)]
  dsimp only
  rw [if_pos (by rw [hg1len] : g1.length % 8 = 0)]
  simp only [CycleResult.map]

theorem xor_aba (a b : Nat) : (a ^^^ b) ^^^ a = b := by
  rw [Nat.xor_comm a b, Nat.xor_assoc, Nat.xor_self, Nat.xor_zero]

/-- C2 amended: executing the same DXYN opcode twice in succession
(memory, VX, VY and the index register unchanged between the draws,
X and Y distinct from the flag register F) always restores the
framebuffer to its pre-draw state; the second draw sets VF to 1
provided some sprite row has a set bit that does not spill past its
first destination byte (row byte >> (VX mod 8) nonzero) and that
row's first destination byte was zero before the first draw.  (When
every set bit spills into the second byte - or lands only on already
set pixels - the collision check, which ANDs the pre-XOR first
destination byte with the unshifted sprite byte, misses it and VF
stays 0.) -/
theorem c2_double_draw (rand rand' : Nat) (s : Chip8Emu) (X Y Nn vx vy : Nat)
    (hX : X < 16) (hY : Y < 16) (hN : Nn < 16)
    (hXne : X ≠ 15) (hYne : Y ≠ 15)
    (hrl : s.core.registers.length = 16)
    (hgl : s.core.gfx.length = 256)
    (h1 : s.core.memory.get? s.core.program_counter = some (0xD0 + X))
    (h2 : s.core.memory.get? ((s.core.program_counter + 1) % 65536) = some (Y * 16 + Nn))
    (h3 : s.core.memory.get? ((s.core.program_counter + 2) % 65536) = some (0xD0 + X))
    (h4 : s.core.memory.get? (((s.core.program_counter + 2) % 65536 + 1) % 65536) =
      some (Y * 16 + Nn))
    (hrx : s.core.registers.get? X = some vx)
    (hry : s.core.registers.get? Y = some vy)
    (hmem : ∀ r, r < Nn → (s.core.index_register + r) % 65536 < s.core.memory.length) :
    ∃ s1 s2, emulate_cycle rand s = .ok s1 ∧ emulate_cycle rand' s1 = .ok s2 ∧
      s2.core.gfx = s.core.gfx ∧
      ((∃ r, r < Nn ∧
          s.core.memory.getD ((s.core.index_register + r) % 65536) 0 < 256 ∧
          (s.core.memory.getD ((s.core.index_register + r) % 65536) 0 >>>
            ((vx &&& 0x3F) % 8)) ≠ 0 ∧
          s.core.gfx.getD
            (((vy &&& 0x1F) * 8 + (vx &&& 0x3F) / 8 + r * 8) % 256) 0 = 0) →
        s2.core.registers.get? 15 = some 1) := by
  obtain ⟨g1, vf1, heq1, hg1len, hchar1⟩ :=
    drawRows_run s.core.memory s.core.index_register (vx &&& 0x3F) (vy &&& 0x1F) Nn 0
      s.core.gfx 0 hgl (fun r hr1 hr2 => hmem r (by omega))
  have H1 := cycle_draw rand s X Y Nn vx vy g1 vf1 hX hY hN hrl h1 h2 hrx hry heq1 hg1len
  obtain ⟨g2, vf2, heq2, hg2len, hchar2⟩ :=
    drawRows_run s.core.memory s.core.index_register (vx &&& 0x3F) (vy &&& 0x1F) Nn 0
      g1 0 hg1len (fun r hr1 hr2 => hmem r (by omega))
  have H2 := cycle_draw rand'
    ⟨{ s.core with opcode := (0xD0 + X) * 256 + (Y * 16 + Nn),
                   program_counter := (s.core.program_counter + 2) % 65536,
                   registers := (s.core.registers.set 15 0).set 15 vf1,
                   gfx := g1 }, s.quirks⟩
    X Y Nn vx vy g2 vf2 hX hY hN
    (by dsimp only; rw [List.length_set, List.length_set]; exact hrl)
    h3 h4
    (by dsimp only
        rw [List.get?_set_ne _ _ (by omega : (15:Nat) ≠ X),
            List.get?_set_ne _ _ (by omega : (15:Nat) ≠ X)]
        exact hrx)
    (by dsimp only
        rw [List.get?_set_ne _ _ (by omega : (15:Nat) ≠ Y),
            List.get?_set_ne _ _ (by omega : (15:Nat) ≠ Y)]
        exact hry)
    heq2 hg2len
  refine ⟨_, _, H1, H2, ?_, ?_⟩
  · dsimp only
    apply List.ext_get?
    intro n
    by_cases hn : n < 256
    · rw [get?_eq_some_getD (show n < g2.length by rw [hg2len]; omega),
          get?_eq_some_getD (show n < s.core.gfx.length by rw [hgl]; omega),
          hchar2 n, hchar1 n, Nat.xor_assoc, Nat.xor_self, Nat.xor_zero]
    · rw [List.get?_eq_none.mpr (by rw [hg2len]; omega),
          List.get?_eq_none.mpr (by rw [hgl]; omega)]
  · dsimp only
    intro hwit
    rw [List.get?_set_eq_of_lt _
          (by rw [List.length_set, List.length_set, List.length_set, hrl]; omega)]
    obtain ⟨r, hrN, hd256, hDne, hg0⟩ := hwit
    have hcx64 : vx &&& 0x3F < 64 := by
      have h63 := Nat.and_le_right (n := vx) (m := 0x3F)
      omega
    have hval : g1.getD (((vy &&& 0x1F) * 8 + (vx &&& 0x3F) / 8 + r * 8) % 256) 0 ^^^
        contribRows s.core.memory s.core.index_register (vx &&& 0x3F) (vy &&& 0x1F)
          (((vy &&& 0x1F) * 8 + (vx &&& 0x3F) / 8 + r * 8) % 256) 0 (r - 0) =
        s.core.memory.getD ((s.core.index_register + r) % 65536) 0 >>>
          ((vx &&& 0x3F) % 8) := by
      rw [Nat.sub_zero, hchar1, hg0, Nat.zero_xor]
      have hsplit := contribRows_split s.core.memory s.core.index_register (vx &&& 0x3F)
        (vy &&& 0x1F) (((vy &&& 0x1F) * 8 + (vx &&& 0x3F) / 8 + r * 8) % 256) r (Nn - r) 0
      rw [Nat.zero_add, show r + (Nn - r) = Nn from by omega] at hsplit
      rw [hsplit, show Nn - r = (Nn - r - 1) + 1 from by omega, contribRows]
      rw [contribRows_zero_away s.core.memory s.core.index_register (vx &&& 0x3F)
            (vy &&& 0x1F) r hcx64 (by omega) (Nn - r - 1) (r + 1) (by omega) (by omega),
          Nat.xor_zero]
      unfold stepContrib
      dsimp only
      rw [if_pos rfl,
          if_neg (by omega :
            ¬(((vy &&& 0x1F) * 8 + (vx &&& 0x3F) / 8 + r * 8) % 256 + 1 =
                ((vy &&& 0x1F) * 8 + (vx &&& 0x3F) / 8 + r * 8) % 256 ∧
              (vx &&& 0x3F) % 8 ≠ 0 ∧ vx &&& 0x3F < 56)),
          Nat.xor_zero, xor_aba]
    have hvone := drawRows_vf_one s.core.memory s.core.index_register (vx &&& 0x3F)
      (vy &&& 0x1F) Nn 0 g1 0 g2 vf2 hg1len
      (fun r' a b => hmem r' (by omega)) heq2 r (by omega) (by omega)
      (by rw [hval]
          exact spill_check_ne_zero
            (s.core.memory.getD ((s.core.index_register + r) % 65536) 0)
            ((vx &&& 0x3F) % 8) hd256 hDne)
    rw [hvone]

/-- Counterexample for C2: the non-empty 1-row sprite 0x07 drawn twice
at column 3 (program `D011 D011`) restores the framebuffer, but the
second draw leaves VF = 0: all three sprite bits spill into the second
framebuffer byte, which the collision check `(pre-XOR first byte <<
shift) & sprite` never inspects. -/
theorem c2_counterexample :
    runTwo 0 spillDrawState = .ok spillDrawStateAfter ∧
    spillDrawStateAfter.core.registers.get? 15 = some 0 ∧
    spillDrawStateAfter.core.gfx = spillDrawState.core.gfx := by
  exact ⟨by decide, by decide, by decide⟩

/-- Witness for the amended C2: sprite byte 0x80 drawn twice at (0,0)
restores the framebuffer and the second draw reports the collision. -/
theorem c2_double_draw_witness :
    ((runTwo 0 alignedDrawState).stateOf.map
      (fun t => (t.core.gfx, t.core.registers.get? 15))) =
      some (alignedDrawState.core.gfx, some 1) := by
  obtain ⟨s1, s2, hA, hB, hgfx, hvfImp⟩ :=
    c2_double_draw 0 0 alignedDrawState 0 1 1 0 0
      (by norm_num) (by norm_num) (by norm_num) (by norm_num) (by norm_num)
      (by decide) (by decide)
      (by decide) (by decide) (by decide) (by decide)
      (by decide) (by decide)
      (by intro r hr
          have hr0 : r = 0 := by omega
          subst hr0
          decide)
  have hvf := hvfImp ⟨0, by norm_num, by decide, by decide, by decide⟩
  unfold runTwo
  rw [hA]
  dsimp only
  rw [hB]
  simp only [CycleResult.stateOf, Option.map_some']
  rw [hgfx, hvf]
